import Mathlib

/-!
Verification of the StarkEx data-availability committee core
(starkware-libs/starkex-resources): a shallow embedding, in Lean 4, of

* the elliptic-curve primitives and the ECDSA-variant signer of
  `crypto/starkware/crypto/signature/signature.py`,
* the Pedersen hash construction of the same file,
* the availability-claim hash of `stark_ex_objects/starkware/availability_claim.py`
  (Keccak-256 of a fixed 160-byte layout),
* the sparse Merkle tree of `storage/starkware/storage/merkle_tree/merkle_tree.py`,
* the committee batch loop of `committee/committee/committee.py`,

together with theorems settling the frozen claims about this code.

Machine integers are modelled as `Nat` with explicit `% p` reductions; Python
`bytes` values are modelled as `List Nat` (each entry a byte) or, for Merkle
digests, as `Nat`; fallible code returns `Except`/`Option`.
-/

/-! ## Field and curve constants

`FIELD_PRIME` is given by the spec (§3) and pinned by the assertions in
`signature.py` (`N_ELEMENT_BITS_ECDSA == 251`, `N_ELEMENT_BITS_HASH == 252`).
`SHIFT_POINT` and `EC_GEN` are asserted verbatim in `signature.py` lines 48-51.
-/

deriving instance DecidableEq for Except

def FIELD_PRIME : Nat := 2 ^ 251 + 17 * 2 ^ 192 + 1

def N_ELEMENT_BITS_ECDSA : Nat := 251

def N_ELEMENT_BITS_HASH : Nat := 252

/-- Modelled from the spec: the curve coefficient `ALPHA` is loaded from the
parameter blob `pedersen_params.json`, which is not part of the sources; the
curve is `y^2 = x^3 + ALPHA*x + BETA (mod FIELD_PRIME)` (spec §4.1).  The value
used is the published Stark-curve coefficient, consistent with the points
asserted in `signature.py` (see `ec_gen_on_curve` below). -/
def ALPHA : Nat := 1

/-- Modelled from the spec: the curve coefficient `BETA` from the missing
parameter blob (spec §4.1); the published Stark-curve value, consistent with
the points asserted in `signature.py`. -/
def BETA : Nat :=
  3141592653589793238462643383279502884197169399375105820974944592307816406665

/-- Modelled from the spec: the curve-group order `EC_ORDER` from the missing
parameter blob.  `signature.py` line 42 asserts
`2**N_ELEMENT_BITS_ECDSA < EC_ORDER < FIELD_PRIME`, which this value satisfies
(see `ec_order_bounds`). -/
def EC_ORDER : Nat :=
  3618502788666131213697322783095070105526743751716087489154079457884512865583

def SHIFT_POINT : Nat × Nat :=
  (0x49ee3eba8c1600700ee1b87eb599f16716b0b1022947733551fde4050ca6804,
   0x3ca0cfe4b3bc6ddf346d49d06ea0ed34e621062c0e056c1d0405d266e10268a)

def EC_GEN : Nat × Nat :=
  (0x1ef15c18599971b7beced415a40f0c7deacfd9b0d1819e03d723d8bc943cfca,
   0x5668060aa49730b7be4801df46ec62de53ecd11abe43a32873000c36e8dc1f)

def MINUS_SHIFT_POINT : Nat × Nat := (SHIFT_POINT.1, FIELD_PRIME - SHIFT_POINT.2)

/-- Sanity anchor: `EC_GEN` (asserted in `signature.py`) lies on
`y^2 = x^3 + ALPHA*x + BETA`, confirming the modelled `ALPHA`/`BETA`. -/
theorem ec_gen_on_curve :
    EC_GEN.2 * EC_GEN.2 % FIELD_PRIME
      = (EC_GEN.1 * EC_GEN.1 % FIELD_PRIME * EC_GEN.1 + ALPHA * EC_GEN.1 + BETA)
          % FIELD_PRIME := by decide

/-- Sanity anchor: `SHIFT_POINT` (asserted in `signature.py`) lies on the curve. -/
theorem shift_point_on_curve :
    SHIFT_POINT.2 * SHIFT_POINT.2 % FIELD_PRIME
      = (SHIFT_POINT.1 * SHIFT_POINT.1 % FIELD_PRIME * SHIFT_POINT.1
          + ALPHA * SHIFT_POINT.1 + BETA) % FIELD_PRIME := by decide

/-- Sanity anchor: the assertion `2**251 < EC_ORDER < FIELD_PRIME` of
`signature.py` line 42 holds for the modelled `EC_ORDER`. -/
theorem ec_order_bounds : 2 ^ 251 < EC_ORDER ∧ EC_ORDER < FIELD_PRIME := by decide

/-! ## Modular arithmetic helpers

`div_mod(n, m, p)` in the missing `math_utils.py` divides `n` by `m` modulo
`p` (spec §4.1: "modular inverse via extended Euclidean").  We realise the
modular inverse by Fermat exponentiation `m^(p-2) mod p`, which agrees with
the extended-Euclidean inverse for a prime modulus and a nonzero argument
(`invMod_mul_self` below proves it is the modular inverse); on the
evaluation paths used in this development the modulus is one of the two
primes `FIELD_PRIME`, `EC_ORDER`, and every divisor is nonzero.
-/

def powModAux : Nat → Nat → Nat → Nat → Nat → Nat
  | 0, _, _, _, acc => acc
  | fuel + 1, b, e, m, acc =>
    if e = 0 then acc
    else powModAux fuel (b * b % m) (e / 2) m (if e % 2 = 1 then acc * b % m else acc)

def powMod (b e m : Nat) : Nat := powModAux 256 (b % m) e m (1 % m)

def invMod (a p : Nat) : Nat := powMod a (p - 2) p

def div_mod (n m p : Nat) : Nat := n * invMod m p % p

theorem powModAux_eq (fuel : Nat) :
    ∀ (b e m acc : Nat), 0 < m → e < 2 ^ fuel →
      powModAux fuel b e m acc = acc * b ^ e % m ∨
        (powModAux fuel b e m acc = acc ∧ e = 0) := by
  induction fuel with
  | zero =>
    intro b e m acc _ he
    right
    exact ⟨rfl, by simpa using Nat.lt_one_iff.mp (by simpa using he)⟩
  | succ n ih =>
    intro b e m acc hm he
    by_cases h0 : e = 0
    · right
      simp [powModAux, h0]
    · left
      have he2 : e / 2 < 2 ^ n := by
        rw [Nat.div_lt_iff_lt_mul (by norm_num : (0:Nat) < 2)]
        calc e < 2 ^ (n + 1) := he
          _ = 2 ^ n * 2 := by rw [pow_succ]
      have step := ih (b * b % m) (e / 2) m
        (if e % 2 = 1 then acc * b % m else acc) hm he2
      have hin : (b * b % m) ^ (e / 2) % m = (b * b) ^ (e / 2) % m :=
        (Nat.pow_mod (b * b) (e / 2) m).symm
      have hbsq : ∀ acc' : Nat, acc' * (b * b % m) ^ (e / 2) % m
          = acc' * (b * b) ^ (e / 2) % m := by
        intro acc'
        rw [Nat.mul_mod, hin, ← Nat.mul_mod]
      have hsplit : b ^ e = (b * b) ^ (e / 2) * b ^ (e % 2) := by
        conv_lhs => rw [← Nat.div_add_mod e 2]
        rw [Nat.pow_add]
        congr 1
        rw [Nat.pow_mul]
        congr 1
        rw [pow_two]
      rcases step with hstep | ⟨hstep, hdiv0⟩
      · rw [powModAux, if_neg h0, hstep, hbsq]
        by_cases hodd : e % 2 = 1
        · rw [if_pos hodd, hsplit, hodd, pow_one, Nat.mul_mod,
            Nat.mod_mod_of_dvd _ dvd_rfl, ← Nat.mul_mod]
          congr 1
          ring
        · rw [if_neg hodd, hsplit]
          have h2 : e % 2 = 0 := by omega
          rw [h2, pow_zero, Nat.mul_one]
      · have he1 : e = 1 := by omega
        subst he1
        rw [powModAux, if_neg h0, hstep]
        norm_num

theorem powMod_eq (b e m : Nat) (hm : 0 < m) (he : e < 2 ^ 256) :
    powMod b e m = b ^ e % m := by
  have hb : (b % m) ^ e % m = b ^ e % m := (Nat.pow_mod b e m).symm
  rcases powModAux_eq 256 (b % m) e m (1 % m) hm he with h | ⟨h, h0⟩
  · rw [powMod, h, Nat.mul_mod, Nat.mod_mod_of_dvd _ dvd_rfl, hb, ← Nat.mul_mod,
      Nat.one_mul]
  · rw [powMod, h, h0, pow_zero]

/-- The Fermat inverse is a genuine modular inverse for a prime modulus and
a nonzero argument: this justifies the modelling of `div_mod` (the original
`math_utils.py`, absent from the sources, uses the extended Euclidean
algorithm; the modular inverse is unique, so the two agree). -/
theorem invMod_mul_self (a p : Nat) (hp : p.Prime) (hpa : ¬ p ∣ a)
    (hsize : p < 2 ^ 256) : invMod a p * a % p = 1 := by
  have hp1 : 1 < p := hp.one_lt
  have he : p - 2 < 2 ^ 256 := by omega
  rw [invMod, powMod_eq a (p - 2) p (by omega) he, Nat.mul_mod,
    Nat.mod_mod_of_dvd _ dvd_rfl, ← Nat.mul_mod, ← pow_succ]
  have h2 : p - 2 + 1 = p - 1 := by omega
  rw [h2]
  haveI : Fact p.Prime := ⟨hp⟩
  haveI : Fact (1 < p) := ⟨hp1⟩
  have hcast : ((a : ZMod p) ^ (p - 1)) = 1 := by
    apply ZMod.pow_card_sub_one_eq_one
    rw [Ne, ZMod.natCast_zmod_eq_zero_iff_dvd]
    exact hpa
  have hval := congrArg ZMod.val hcast
  rwa [← Nat.cast_pow, ZMod.val_natCast, ZMod.val_one p] at hval

/-! ## Elliptic-curve primitives

Modelled from the spec (§4.1): `math_utils.py` is not part of the sources.
`ec_add_aff` is the chord formula for points with distinct `x` (the source
asserts `(x1 - x2) % p != 0` before using it; every call site in this file
establishes that assertion first).  `ec_double_aff` is the tangent formula
(the source asserts `y % p != 0`; this never fails on a curve group of odd
prime order, which has no affine 2-torsion).  Subtractions are performed as
Python does on integers, then reduced modulo `FIELD_PRIME`; we add multiples
of `p` before subtracting so the `Nat` subtraction cannot truncate.
-/

def ec_add_aff (pt1 pt2 : Nat × Nat) : Nat × Nat :=
  let p := FIELD_PRIME
  let m := (pt1.2 + p - pt2.2 % p) % p * invMod ((pt1.1 + p - pt2.1 % p) % p) p % p
  let x := (m * m + 2 * p - pt1.1 % p - pt2.1 % p) % p
  (x, (m * ((pt1.1 + p - x) % p) + p - pt1.2 % p) % p)

def ec_double_aff (pt : Nat × Nat) : Nat × Nat :=
  let p := FIELD_PRIME
  let m := (3 * (pt.1 * pt.1 % p) + ALPHA) % p * invMod (2 * pt.2 % p) p % p
  let x := (m * m + 2 * p - pt.1 % p - pt.1 % p) % p
  (x, (m * ((pt.1 + p - x) % p) + p - pt.2 % p) % p)

set_option maxRecDepth 100000 in
example : ec_double_aff EC_GEN =
    (3324833730090626974525872402899302150520188025637965566623476530814354734325,
     3147007486456030910661996439995670279305852583596209647900952752170983517249) := by
  decide

set_option maxRecDepth 100000 in
example : ec_add_aff EC_GEN SHIFT_POINT =
    (2365367695301953556586782503475615437070783381284069914867205939178339023385,
     2015372143291242816462682935231530387238807631885068762755975107882012528380) := by
  decide

/-! ## Full curve points and the plain double-and-add multiplier

`ec_mult` is the scalar multiplier of the missing `math_utils.py`, modelled
from the spec (§4.1): a double-and-add multiplier over curve points where the
degenerate addition case `x1 == x2` is "handled as either doubling or point
at infinity".  `EcPt.inf` is the point at infinity.  The recursion
(`m == 1` returns the point; even `m` halves after doubling; odd `m`
peels one addition) is given fuel `600`, enough for every scalar below
`2 ^ 299`; exhausted fuel (`none`) models non-termination of the Python
recursion (which never occurs for the scalars drawn by `sign`).
-/

inductive EcPt where
  | inf : EcPt
  | aff : Nat → Nat → EcPt
deriving DecidableEq, Repr

def ec_double_pt : EcPt → EcPt
  | .inf => .inf
  | .aff x y =>
    if y % FIELD_PRIME = 0 then .inf
    else
      let q := ec_double_aff (x, y)
      .aff q.1 q.2

def ec_add_pt : EcPt → EcPt → EcPt
  | .inf, q => q
  | p, .inf => p
  | .aff x1 y1, .aff x2 y2 =>
    if x1 % FIELD_PRIME = x2 % FIELD_PRIME then
      if y1 % FIELD_PRIME = y2 % FIELD_PRIME then ec_double_pt (.aff x1 y1) else .inf
    else
      let q := ec_add_aff (x1, y1) (x2, y2)
      .aff q.1 q.2

def ec_multAux : Nat → Nat → EcPt → Option EcPt
  | 0, _, _ => none
  | fuel + 1, m, pt =>
    if m = 1 then some pt
    else if m % 2 = 0 then ec_multAux fuel (m / 2) (ec_double_pt pt)
    else (ec_multAux fuel (m - 1) pt).map (fun q => ec_add_pt q pt)

def ec_mult (m : Nat) (pt : Nat × Nat) : Option EcPt :=
  ec_multAux 600 m (.aff pt.1 pt.2)

/-! ## The ECDSA-variant signer of `signature.py`

Every Python `assert` that can escape a function is modelled as an
`Except.error` carrying the assertion's identity; `sign`'s `continue`
(resampling the nonce) is modelled as `.ok none`.
-/

inductive SigAssert where
  | privRange : SigAssert
  | msgRange : SigAssert
  | rRange : SigAssert
  | wRange : SigAssert
  | pubNotOnCurve : SigAssert
  | mimicRange : SigAssert
  | mimicCollision : SigAssert
  | mimicResidue : SigAssert
  | addCollision : SigAssert
  | scalarFuel : SigAssert
  | scalarInfinity : SigAssert
deriving DecidableEq, Repr

/-- `private_key_to_ec_point_on_stark_curve` of `signature.py` lines 84-86:
assert `0 < priv_key < EC_ORDER`, then compute the public key
`priv_key * EC_GEN` with the plain `ec_mult`. -/
def private_key_to_ec_point_on_stark_curve (priv_key : Nat) :
    Except SigAssert EcPt :=
  if 0 < priv_key ∧ priv_key < EC_ORDER then
    match ec_mult priv_key EC_GEN with
    | none => .error .scalarFuel
    | some pt => .ok pt
  else .error .privRange

/-- The x/y pair computed by `sign` at line 109 of `signature.py`:
`x = ec_mult(k, EC_GEN, ALPHA, FIELD_PRIME)[0]` (the signing path uses the
plain `ec_mult`, not `mimic_ec_mult_air`).  `.error` models the two ways the
Python expression could fail to produce a pair of integers (non-termination
of `ec_mult`, or an infinity result with no `[0]` component); neither occurs
for `0 < k < EC_ORDER`. -/
def sign_nonce_point (k : Nat) : Except SigAssert (Nat × Nat) :=
  match ec_mult k EC_GEN with
  | none => .error .scalarFuel
  | some .inf => .error .scalarInfinity
  | some (.aff x y) => .ok (x, y)

/-- One iteration of the `while True` nonce loop of `sign`
(`signature.py` lines 102-127), for a given drawn nonce `k`:
`.ok (some (r, w))` is the returned signature, `.ok none` is `continue`
(the nonce is rejected and a fresh one is drawn), `.error` is an escaping
assertion. -/
def sign_attempt (msg_hash priv_key k : Nat) : Except SigAssert (Option (Nat × Nat)) :=
  if msg_hash < 2 ^ N_ELEMENT_BITS_ECDSA then
    match sign_nonce_point k with
    | .error e => .error e
    | .ok xy =>
      let r := xy.1
      if 1 ≤ r ∧ r < 2 ^ N_ELEMENT_BITS_ECDSA then
        if (msg_hash + r * priv_key) % EC_ORDER = 0 then .ok none
        else
          let w := div_mod k (msg_hash + r * priv_key) EC_ORDER
          if 1 ≤ w ∧ w < 2 ^ N_ELEMENT_BITS_ECDSA then .ok (some (r, w))
          else .ok none
      else .ok none
  else .error .msgRange

def mimicAux : Nat → Nat → (Nat × Nat) → (Nat × Nat) → Except SigAssert (Nat × Nat)
  | 0, m, _, acc => if m = 0 then .ok acc else .error .mimicResidue
  | fuel + 1, m, pt, acc =>
    if acc.1 = pt.1 then .error .mimicCollision
    else mimicAux fuel (m / 2) (ec_double_aff pt)
      (if m % 2 = 1 then ec_add_aff acc pt else acc)

/-- `mimic_ec_mult_air` of `signature.py` lines 130-144: computes
`m * point + shift_point` by exactly 251 shifted double-and-add iterations,
asserting `partial_sum.x != point.x` at every step, requiring
`0 < m < 2^251` on entry and `m == 0` at the end. -/
def mimic_ec_mult_air (m : Nat) (point shift_point : Nat × Nat) :
    Except SigAssert (Nat × Nat) :=
  if 0 < m ∧ m < 2 ^ N_ELEMENT_BITS_ECDSA then
    mimicAux N_ELEMENT_BITS_ECDSA m point shift_point
  else .error .mimicRange

/-- The `assert (x1 - x2) % p != 0` guard of the missing `math_utils.ec_add`,
modelled from the spec: the two direct `ec_add` calls inside `verify` raise
(and are caught as "invalid signature") when the x-coordinates coincide. -/
def ec_add_checked (pt1 pt2 : Nat × Nat) : Except SigAssert (Nat × Nat) :=
  if pt1.1 % FIELD_PRIME = pt2.1 % FIELD_PRIME then .error .addCollision
  else .ok (ec_add_aff pt1 pt2)

def on_curve (pt : Nat × Nat) : Bool :=
  decide (pt.2 * pt.2 % FIELD_PRIME
    = (pt.1 * pt.1 % FIELD_PRIME * pt.1 + ALPHA * pt.1 + BETA) % FIELD_PRIME)

/-- The `try` block of `verify` (`signature.py` lines 180-184):
`zG = mimic(msg_hash, EC_GEN, -SHIFT)`, `rQ = mimic(r, public_key, SHIFT)`,
`wB = mimic(w, zG + rQ, SHIFT)`, and the result is `(wB - SHIFT).x`; the
first escaping assertion aborts the block. -/
def verify_core (msg_hash r w : Nat) (public_key : Nat × Nat) :
    Except SigAssert Nat :=
  (mimic_ec_mult_air msg_hash EC_GEN MINUS_SHIFT_POINT).bind fun zG =>
  (mimic_ec_mult_air r public_key SHIFT_POINT).bind fun rQ =>
  (ec_add_checked zG rQ).bind fun s1 =>
  (mimic_ec_mult_air w s1 SHIFT_POINT).bind fun wB =>
  (ec_add_checked wB MINUS_SHIFT_POINT).bind fun x =>
  .ok x.1

/-- `verify` of `signature.py` lines 147-189, for a public key given as a
point.  The range assertions on `r`, `w`, `msg_hash` and the on-curve
assertion escape the function (`.error`); any assertion inside the
`try` block (`verify_core`) is caught and yields `.ok false`; otherwise the
result is `r == x` where `x = (w*(msg_hash*EC_GEN + r*public_key)).x`. -/
def verify (msg_hash r w : Nat) (public_key : Nat × Nat) : Except SigAssert Bool :=
  if ¬ (1 ≤ r ∧ r < 2 ^ N_ELEMENT_BITS_ECDSA) then .error .rRange
  else if ¬ (1 ≤ w ∧ w < 2 ^ N_ELEMENT_BITS_ECDSA) then .error .wRange
  else if ¬ (msg_hash < 2 ^ N_ELEMENT_BITS_ECDSA) then .error .msgRange
  else if ¬ on_curve public_key then .error .pubNotOnCurve
  else
    .ok (match verify_core msg_hash r w public_key with
      | .ok x => decide (r = x)
      | .error _ => false)

set_option maxRecDepth 100000 in
example : ec_mult 1 EC_GEN = some (.aff EC_GEN.1 EC_GEN.2) := by decide

set_option maxRecDepth 100000 in
example : ec_mult 2 EC_GEN
    = some (.aff (ec_double_aff EC_GEN).1 (ec_double_aff EC_GEN).2) := by decide

set_option maxRecDepth 100000 in
example : sign_attempt 1 1 1
    = .ok (some (EC_GEN.1, div_mod 1 (1 + EC_GEN.1) EC_ORDER)) := by decide

/-! ## The Pedersen hash of `signature.py`

`pedersen_hash_as_point` (lines 200-216) is parameterised here by the
constant-points table: the concrete `CONSTANT_POINTS` are loaded from the
parameter blob `pedersen_params.json`, which is not part of the sources
(only its first two entries, `SHIFT_POINT` and `EC_GEN`, are pinned by
assertions).
-/

inductive PedersenAssert where
  | inputRange : PedersenAssert
  | sliceLength : PedersenAssert
  | unhashable : PedersenAssert
  | residue : PedersenAssert
deriving DecidableEq, Repr

/-- The inner `for pt in point_list` loop of `pedersen_hash_as_point`:
scan the bits of `x` from LSB to MSB against the 252 constant points of the
current element, asserting `point.x != pt.x` before each step, adding the
constant point exactly when the bit is 1, and asserting `x == 0` at the
end. -/
def pedersen_point_loop : Nat → (Nat × Nat) → List (Nat × Nat) →
    Except PedersenAssert (Nat × Nat)
  | x, point, [] => if x = 0 then .ok point else .error .residue
  | x, point, pt :: rest =>
    if point.1 = pt.1 then .error .unhashable
    else pedersen_point_loop (x / 2)
      (if x % 2 = 1 then ec_add_aff point pt else point) rest

/-- The outer `for i, x in enumerate(elements)` loop of
`pedersen_hash_as_point`: check `0 <= x < FIELD_PRIME`, slice
`CONSTANT_POINTS[2 + i*252 : 2 + (i+1)*252]`, assert the slice length,
then run the bit loop. -/
def pedersen_elem_loop (constant_points : List (Nat × Nat)) :
    Nat → (Nat × Nat) → List Nat → Except PedersenAssert (Nat × Nat)
  | _, point, [] => .ok point
  | i, point, x :: rest =>
    if x < FIELD_PRIME then
      let point_list :=
        (constant_points.drop (2 + i * N_ELEMENT_BITS_HASH)).take N_ELEMENT_BITS_HASH
      if point_list.length = N_ELEMENT_BITS_HASH then
        match pedersen_point_loop x point point_list with
        | .error e => .error e
        | .ok point2 => pedersen_elem_loop constant_points (i + 1) point2 rest
      else .error .sliceLength
    else .error .inputRange

/-- `pedersen_hash_as_point` of `signature.py` lines 200-216, parameterised
by the constant-points table; the accumulator starts at
`CONSTANT_POINTS[0]` (the shift point). -/
def pedersen_hash_as_point (constant_points : List (Nat × Nat))
    (elements : List Nat) : Except PedersenAssert (Nat × Nat) :=
  match constant_points with
  | [] => .error .sliceLength
  | p0 :: _ => pedersen_elem_loop constant_points 0 p0 elements

/-- `pedersen_hash` of `signature.py` lines 196-197: the x-coordinate of
the resulting point. -/
def pedersen_hash (constant_points : List (Nat × Nat)) (elements : List Nat) :
    Except PedersenAssert Nat :=
  (pedersen_hash_as_point constant_points elements).map (fun q => q.1)

/-! ## Keccak-256 and the availability-claim hash

`hash_availability_claim` (`stark_ex_objects/starkware/availability_claim.py`)
calls `Web3.solidityKeccak(['bytes32','uint256','bytes32','uint256','uint256'],
[vaults_root, vaults_height, trades_root, trades_height, seq_num])`.
Modelled from the spec (§6): `Web3` is an external library; `solidityKeccak`
with these types is Keccak-256 of the tight packing
`vaults_root[32] then vaults_height[u256 BE] then orders_root[32] then
trades_height[u256 BE] then sequence_number[u256 BE]` (160 bytes).
Keccak-256 (rate 1088, legacy `0x01` padding) is implemented below; bytes are
`Nat` values below 256, the state is a flat list of 25 lanes indexed
`x + 5*y`.
-/

def keccakRC : List Nat :=
  [0x1,
   0x8082,
   0x800000000000808a,
   0x8000000080008000,
   0x808b,
   0x80000001,
   0x8000000080008081,
   0x8000000000008009,
   0x8a,
   0x88,
   0x80008009,
   0x8000000a,
   0x8000808b,
   0x800000000000008b,
   0x8000000000008089,
   0x8000000000008003,
   0x8000000000008002,
   0x8000000000000080,
   0x800a,
   0x800000008000000a,
   0x8000000080008081,
   0x8000000000008080,
   0x80000001,
   0x8000000080008008]

def keccakRho : List Nat :=
  [0, 1, 62, 28, 27] ++ [36, 44, 6, 55, 20] ++ [3, 10, 43, 25, 39] ++
    [41, 45, 15, 21, 8] ++ [18, 2, 61, 56, 14]

def rol64 (v n : Nat) : Nat :=
  ((v <<< (n % 64)) ||| (v >>> (64 - n % 64))) % 2 ^ 64

def keccakTheta (A : List Nat) : List Nat :=
  let C := (List.range 5).map (fun x =>
    A.getD x 0 ^^^ A.getD (x + 5) 0 ^^^ A.getD (x + 10) 0 ^^^
    A.getD (x + 15) 0 ^^^ A.getD (x + 20) 0)
  let D := (List.range 5).map (fun x =>
    C.getD ((x + 4) % 5) 0 ^^^ rol64 (C.getD ((x + 1) % 5) 0) 1)
  (List.range 25).map (fun i => A.getD i 0 ^^^ D.getD (i % 5) 0)

def keccakRhoPi (A : List Nat) : List Nat :=
  (List.range 25).foldl (fun B i =>
    let x := i % 5
    let y := i / 5
    B.set (y + 5 * ((2 * x + 3 * y) % 5)) (rol64 (A.getD i 0) (keccakRho.getD i 0)))
    (List.replicate 25 0)

def keccakChi (B : List Nat) : List Nat :=
  (List.range 25).map (fun i =>
    let x := i % 5
    let y := i / 5
    B.getD i 0 ^^^
      (((2 ^ 64 - 1) ^^^ B.getD ((x + 1) % 5 + 5 * y) 0) &&& B.getD ((x + 2) % 5 + 5 * y) 0))

def keccakF (A : List Nat) : List Nat :=
  keccakRC.foldl (fun st rc =>
    let st2 := keccakChi (keccakRhoPi (keccakTheta st))
    st2.set 0 (st2.getD 0 0 ^^^ rc)) A

def bytesToLaneLE (bs : List Nat) : Nat :=
  bs.foldr (fun b acc => acc * 256 + b) 0

def laneToBytesLE (v : Nat) : List Nat :=
  (List.range 8).map (fun i => v / 256 ^ i % 256)

def keccakAbsorbBlock (A : List Nat) (block : List Nat) : List Nat :=
  (List.range 17).foldl (fun st i =>
    st.set i (st.getD i 0 ^^^ bytesToLaneLE ((block.drop (8 * i)).take 8))) A

def keccakBlocks : Nat → List Nat → List Nat → List Nat
  | 0, A, _ => A
  | n + 1, A, bytes =>
    keccakBlocks n (keccakF (keccakAbsorbBlock A (bytes.take 136))) (bytes.drop 136)

def keccakPad (msg : List Nat) : List Nat :=
  let padlen := 136 - msg.length % 136
  if padlen = 1 then msg ++ [0x81]
  else msg ++ 0x01 :: List.replicate (padlen - 2) 0 ++ [0x80]

def keccak256 (msg : List Nat) : List Nat :=
  let padded := keccakPad msg
  let A := keccakBlocks (padded.length / 136) (List.replicate 25 0) padded
  ((List.range 4).map (fun i => laneToBytesLE (A.getD i 0))).flatten

set_option maxRecDepth 1000000 in
/-- Sanity anchor: the Keccak-256 of the empty string is the published test
vector `c5d2460186f7233c927e7db2dcc703c0e500b653ca82273b7bfad8045d85a470`. -/
theorem keccak256_empty_vector :
    keccak256 [] =
      [0xc5, 0xd2, 0x46, 0x01, 0x86, 0xf7, 0x23, 0x3c, 0x92, 0x7e, 0x7d, 0xb2,
       0xdc, 0xc7, 0x03, 0xc0, 0xe5, 0x00, 0xb6, 0x53, 0xca, 0x82, 0x27, 0x3b,
       0x7b, 0xfa, 0xd8, 0x04, 0x5d, 0x85, 0xa4, 0x70] := by decide

def u256be (n : Nat) : List Nat :=
  (List.range 32).map (fun i => n / 256 ^ (31 - i) % 256)

def bytesToNatBE (bs : List Nat) : Nat :=
  bs.foldl (fun acc b => acc * 256 + b) 0

/-- `hash_availability_claim` of
`stark_ex_objects/starkware/availability_claim.py`: the Keccak-256 of the
tight packing of `(vaults_root, vaults_height, trades_root, trades_height,
seq_num)` with types `(bytes32, uint256, bytes32, uint256, uint256)`. -/
def hash_availability_claim (vaults_root : List Nat) (vaults_height : Nat)
    (trades_root : List Nat) (trades_height seq_num : Nat) : List Nat :=
  keccak256 (vaults_root ++ u256be vaults_height ++ trades_root ++
    u256be trades_height ++ u256be seq_num)

/-- Modelled from the spec: `eth.Account._sign_hash(availability_claim, key)`
(`committee.py` line 189; `eth_account` is an external library) signs the
given 32-byte digest exactly as provided — the message hash consumed by the
(secp256k1) ECDSA signer is `availability_claim` itself, with no
transformation.  This function records the digest handed to the signer. -/
def sign_hash_input (availability_claim : List Nat) : List Nat :=
  availability_claim

/-! ## The sparse Merkle tree of `merkle_tree.py`

The fact store is modelled as a read-only partial map from a digest to the
`(left, right)` pair of the `MerkleNodeFact` stored under it (the
`merkle_node:{hash}` keyspace; `MerkleNodeFact.serialize` and `deserialize`
are mutually inverse, so the pair stands for the 64-byte payload).  Digests
are `Nat` (the 32-byte values).  Writes performed by `update` are returned
as an operation trace instead of mutating the store: facts are immutable and
content-addressed, so no read in a single `update` ever observes its own
writes (reads walk the old tree, writes create the new one), and the trace
keeps the claims about "what was read/written" statable.  Leaf facts of type
`α` are hashed by a parameter `hashF` (`Fact._hash`), and the node hash is a
parameter `H` (`hash_func`).
-/

inductive MerkleErr where
  | missingNode : MerkleErr
  | leafIndex : MerkleErr
deriving DecidableEq, Repr

inductive MOp (α : Type) where
  | read : Nat → MOp α
  | writeNode : Nat → Nat → Nat → MOp α
  | writeLeaf : Nat → α → MOp α
deriving DecidableEq, Repr

/-- `MerkleTree.update` of `merkle_tree.py` lines 156-184, returning the new
root together with the trace of storage operations: an empty modification
list returns the tree unchanged with no operations; at height 0 the last
modification's fact is written (its index asserted to be 0) and its hash
returned; otherwise the children are read, the modifications are partitioned
on `index < 2^(height-1)` (right-side indices shifted down), only non-empty
sides are recursed into, and the combined node fact is written under its
hash `H(left, right)`. -/
def merkle_update {α : Type} (store : Nat → Option (Nat × Nat))
    (H : Nat → Nat → Nat) (hashF : α → Nat) :
    Nat → Nat → List (Nat × α) → Except MerkleErr (Nat × List (MOp α))
  | _, root, [] => .ok (root, [])
  | 0, _, m :: rest =>
    let lp := (m :: rest).getLast (List.cons_ne_nil m rest)
    if lp.1 = 0 then .ok (hashF lp.2, [.writeLeaf (hashF lp.2) lp.2])
    else .error .leafIndex
  | height + 1, root, m :: rest =>
    match store root with
    | none => .error .missingNode
    | some (l, r) =>
      let mods := m :: rest
      let mid := 2 ^ height
      let left_modifications := mods.filter (fun q => decide (q.1 < mid))
      let right_modifications :=
        (mods.filter (fun q => decide (mid ≤ q.1))).map (fun q => (q.1 - mid, q.2))
      if left_modifications.isEmpty then
        match merkle_update store H hashF height r right_modifications with
        | .error e => .error e
        | .ok (r2, tr) =>
          .ok (H l r2, .read root :: tr ++ [.writeNode (H l r2) l r2])
      else if right_modifications.isEmpty then
        match merkle_update store H hashF height l left_modifications with
        | .error e => .error e
        | .ok (l2, tr) =>
          .ok (H l2 r, .read root :: tr ++ [.writeNode (H l2 r) l2 r])
      else
        match merkle_update store H hashF height l left_modifications,
            merkle_update store H hashF height r right_modifications with
        | .error e, _ => .error e
        | .ok _, .error e => .error e
        | .ok (l2, trl), .ok (r2, trr) =>
          .ok (H l2 r2, .read root :: trl ++ trr ++ [.writeNode (H l2 r2) l2 r2])

/-- A `MerkleTree` value as held by the committee: its root digest and
height (the store and hash function are passed explicitly). -/
structure MerkleTreeRH where
  root : Nat
  height : Nat
deriving DecidableEq, Repr

/-- `MerkleTree.update` at the tree level: the Python method returns `self`
for an empty modification list and otherwise a new `MerkleTree` of the same
height with the new root. -/
def merkle_tree_update {α : Type} (store : Nat → Option (Nat × Nat))
    (H : Nat → Nat → Nat) (hashF : α → Nat) (t : MerkleTreeRH)
    (mods : List (Nat × α)) : Except MerkleErr (MerkleTreeRH × List (MOp α)) :=
  match merkle_update store H hashF t.height t.root mods with
  | .error e => .error e
  | .ok (r, tr) => .ok (⟨r, t.height⟩, tr)

/-- `MerkleTree.get_authentication_path` of `merkle_tree.py` lines 143-154:
the sibling digests from the leaf's sibling (first) up to the root's
child-sibling (last). -/
def get_authentication_path (store : Nat → Option (Nat × Nat)) :
    Nat → Nat → Nat → Except MerkleErr (List Nat)
  | 0, _, _ => .ok []
  | height + 1, root, index =>
    match store root with
    | none => .error .missingNode
    | some (l, r) =>
      let mid := 2 ^ height
      if mid ≤ index then
        match get_authentication_path store height r (index - mid) with
        | .error e => .error e
        | .ok path => .ok (path ++ [l])
      else
        match get_authentication_path store height l index with
        | .error e => .error e
        | .ok path => .ok (path ++ [r])

/-- The digest of the height-0 subtree at a given leaf index: the stored
hash of that leaf (`MerkleTree.get_leaves` reads the leaf fact from the
store under exactly this digest). -/
def get_leaf_hash (store : Nat → Option (Nat × Nat)) :
    Nat → Nat → Nat → Except MerkleErr Nat
  | 0, root, _ => .ok root
  | height + 1, root, index =>
    match store root with
    | none => .error .missingNode
    | some (l, r) =>
      let mid := 2 ^ height
      if mid ≤ index then get_leaf_hash store height r (index - mid)
      else get_leaf_hash store height l index

/-- The recursion of `calc_root` (`merkle_tree.py` lines 187-201) consumes
`path[-1]` first (with `mid = 2^(len(path)-1)`) and recurses on `path[:-1]`;
this helper runs the same recursion on the reversed path, structurally. -/
def calcRootAux (H : Nat → Nat → Nat) : Nat → Nat → List Nat → Nat
  | _, value, [] => value
  | index, value, s :: rest =>
    let mid := 2 ^ rest.length
    if mid ≤ index then H s (calcRootAux H (index - mid) value rest)
    else H (calcRootAux H index value rest) s

def calc_root (index value : Nat) (path : List Nat) (H : Nat → Nat → Nat) : Nat :=
  calcRootAux H index value path.reverse

/-- `verify_path` of `merkle_tree.py` lines 204-212. -/
def verify_path (root index value : Nat) (path : List Nat)
    (H : Nat → Nat → Nat) : Bool :=
  decide (root = calc_root index value path H)

/-- Well-formedness of a (sub)tree of a given height rooted at a digest in
the fact store: every internal node's fact is present and content-addressed
(its key is the hash of its payload), recursively.  `MerkleTree.empty_tree`,
`combine` and `update` only ever write such facts. -/
inductive TreeOk (store : Nat → Option (Nat × Nat)) (H : Nat → Nat → Nat) :
    Nat → Nat → Prop
  | leaf (root : Nat) : TreeOk store H 0 root
  | node (height l r root : Nat) : store root = some (l, r) → root = H l r →
      TreeOk store H height l → TreeOk store H height r →
      TreeOk store H (height + 1) root

/-- Last-wins resolution of a modification list: the map sending each index
to the value of the last entry of the list carrying that index. -/
def lastWins {α : Type} (M : List (Nat × α)) : Nat → Option α :=
  fun i => ((M.filter (fun q => q.1 == i)).getLast?).map (fun q => q.2)

/-! ## The committee of `committee.py`

The mutable committee store is modelled as a read-only partial map from
string keys to `CommitteeBatchInfo` records (`CommitteeBatchInfo.serialize`
and `deserialize` are mutually inverse, so the record stands for its JSON
serialisation); writes performed during one batch iteration are returned in
an effects record.  Merkle roots in `StateUpdate` are `Nat` (the source
compares lowercase-hex strings of 32-byte digests, and `bytes.hex` is
injective).  The deferred-write cache (`immediate_storage`, whose `imm_storage.py`
is not part of the sources) is modelled from the spec (§4.6): on successful
scope exit the buffered Merkle writes are flushed, on exit via an exception
they are discarded — accordingly the effects record carries the Merkle
operation traces only on the success paths.  The availability-gateway client
(`availability_gateway_client.py` defines no `order_tree_height` method; the
spec §4.7/§6 defines it as returning an integer, or failing with `BadRequest`
on a non-200 response, which `committee.py` lines 166-182 catch as "no
override") is modelled as an `Except`-valued input.
-/

structure CommitteeBatchInfo where
  vaults_root : Nat
  orders_root : Nat
  sequence_number : Int
deriving DecidableEq, Repr

def committee_batch_info_key (batch_id : Int) : String :=
  "committee_batch_info:" ++ toString batch_id

structure StateUpdate (α β : Type) where
  vaults : List (Nat × α)
  orders : List (Nat × β)
  vault_root : Nat
  order_root : Nat
  prev_batch_id : Int
deriving DecidableEq, Repr

structure CommitteeConfig where
  vaults_merkle_height : Nat
  orders_merkle_height : Nat
deriving DecidableEq, Repr

inductive CommErr where
  | prevBatchNotFound : CommErr
  | merkle : MerkleErr → CommErr
  | vaultRootMismatch : CommErr
  | orderRootMismatch : CommErr
  | treeHeightMismatch : CommErr
deriving DecidableEq, Repr

/-- The storage writes and Merkle-cache flushes performed by one run of
`validate_data_availability` (empty lists when the corresponding write never
happened). -/
structure VDAEffects (α β : Type) where
  vault_ops : List (MOp α)
  order_ops : List (MOp β)
  batch_info_writes : List (String × CommitteeBatchInfo)
deriving DecidableEq, Repr

def noEffects {α β : Type} : VDAEffects α β := ⟨[], [], []⟩

/-- `Committee.validate_data_availability` of `committee.py` lines 93-190:
load the predecessor's `CommitteeBatchInfo`; recompute the vault root (and,
when `validate_orders`, the order root) from the predecessor's stored roots
by applying the update's modifications; abort on a root mismatch (the
deferred cache is discarded, so nothing is persisted); otherwise flush the
cache and store `CommitteeBatchInfo(update roots, prev.seq + 1)` under
`committee_batch_info:{batch_id}`; then determine `trades_height` — the
configured `ORDERS_MERKLE_HEIGHT`, unless the gateway's `order_tree_height()`
succeeds with a different value, which is fatal under `validate_orders` and
otherwise overrides; finally hash the availability claim and hand it to the
signer.  The result is `(signature, availability_claim)` and the effects. -/
def validate_data_availability {α β : Type} (cfg : CommitteeConfig)
    (store : String → Option CommitteeBatchInfo)
    (merkle_store : Nat → Option (Nat × Nat)) (H : Nat → Nat → Nat)
    (hvault : α → Nat) (horder : β → Nat)
    (gw_order_tree_height : Except Unit Nat)
    (batch_id : Int) (state_update : StateUpdate α β) (validate_orders : Bool) :
    Except CommErr (List Nat × List Nat) × VDAEffects α β :=
  match store (committee_batch_info_key state_update.prev_batch_id) with
  | none => (.error .prevBatchNotFound, noEffects)
  | some prev_batch_info =>
    let vault_comp := merkle_update merkle_store H hvault
      cfg.vaults_merkle_height prev_batch_info.vaults_root state_update.vaults
    let order_comp := merkle_update merkle_store H horder
      cfg.orders_merkle_height prev_batch_info.orders_root state_update.orders
    let roots_checked : Except CommErr (List (MOp α) × List (MOp β)) :=
      if validate_orders then
        match vault_comp, order_comp with
        | .error e, _ => .error (.merkle e)
        | .ok _, .error e => .error (.merkle e)
        | .ok (vr, vops), .ok (orr, oops) =>
          if vr ≠ state_update.vault_root then .error .vaultRootMismatch
          else if orr ≠ state_update.order_root then .error .orderRootMismatch
          else .ok (vops, oops)
      else
        match vault_comp with
        | .error e => .error (.merkle e)
        | .ok (vr, vops) =>
          if vr ≠ state_update.vault_root then .error .vaultRootMismatch
          else .ok (vops, [])
    match roots_checked with
    | .error e => (.error e, noEffects)
    | .ok (vops, oops) =>
      let batch_info : CommitteeBatchInfo :=
        ⟨state_update.vault_root, state_update.order_root,
          prev_batch_info.sequence_number + 1⟩
      let eff : VDAEffects α β :=
        ⟨vops, oops, [(committee_batch_info_key batch_id, batch_info)]⟩
      let trades_height : Except CommErr Nat :=
        match gw_order_tree_height with
        | .error _ => .ok cfg.orders_merkle_height
        | .ok th =>
          if cfg.orders_merkle_height ≠ th ∧ validate_orders then
            .error .treeHeightMismatch
          else .ok th
      match trades_height with
      | .error e => (.error e, eff)
      | .ok th =>
        let availability_claim := hash_availability_claim
          (u256be batch_info.vaults_root) cfg.vaults_merkle_height
          (u256be batch_info.orders_root) th batch_info.sequence_number.toNat
        (.ok (sign_hash_input availability_claim, availability_claim), eff)

/-- `custom_validation.is_valid`: the user-supplied hook, taking the state
update and the batch id, returning `True`. -/
def is_valid {α β : Type} (state_update : StateUpdate α β) (batch_id : Int) : Bool :=
  true

inductive PyErr where
  | typeErr : PyErr
deriving DecidableEq, Repr

/-- The call `await is_valid(availability_update)` at `committee.py`
line 206, as written: `custom_validation.is_valid` declares two required
positional parameters `(state_update, batch_id)`, so the single-argument
call raises `TypeError` before the hook body is ever evaluated. -/
def is_valid_call_as_written {α β : Type} (availability_update : StateUpdate α β) :
    Except PyErr Bool :=
  .error .typeErr

/-- The observable outcome of one iteration of `Committee.run`
(`committee.py` lines 199-215): the value of `next_batch_id` after the
iteration, the signature POSTed to the gateway (if any), and the storage
effects. -/
structure IterResult (α β : Type) where
  next_batch_id : Int
  sent : Option (Int × List Nat × List Nat)
  effects : VDAEffects α β
deriving DecidableEq, Repr

/-- One iteration of the `while not self.stopped` loop of `Committee.run`:
fetch the batch's update (absent update: sleep and retry with the same id);
call `is_valid` as written at line 206 (which raises `TypeError`, caught by
the `except Exception` handler: log, sleep, retry with the same id — the
dead code below the call models the loop as written: an `is_valid` result of
`False` would fail the `assert` and retry, `True` would proceed to
validation, the POST, and the durable `next_batch_id` bump). -/
def run_iteration {α β : Type} (cfg : CommitteeConfig)
    (store : String → Option CommitteeBatchInfo)
    (merkle_store : Nat → Option (Nat × Nat)) (H : Nat → Nat → Nat)
    (hvault : α → Nat) (horder : β → Nat)
    (gw_order_tree_height : Except Unit Nat) (validate_orders : Bool)
    (next_batch_id : Int)
    (fetched : Option (StateUpdate α β)) : IterResult α β :=
  match fetched with
  | none => ⟨next_batch_id, none, noEffects⟩
  | some availability_update =>
    match is_valid_call_as_written availability_update with
    | .error _ => ⟨next_batch_id, none, noEffects⟩
    | .ok ok =>
      if ok then
        match validate_data_availability cfg store merkle_store H hvault horder
            gw_order_tree_height next_batch_id availability_update validate_orders with
        | (.error _, eff) => ⟨next_batch_id, none, eff⟩
        | (.ok (signature, availability_claim), eff) =>
          ⟨next_batch_id + 1, some (next_batch_id, signature, availability_claim), eff⟩
      else ⟨next_batch_id, none, noEffects⟩

/-! ## Claim C10: `update` with no modifications is the identity -/

/-- C10: for every `MerkleTree` `t`, calling `t.update` with an empty
modification list returns a tree whose root and height equal `t`'s root and
height, and performs no reads from and no writes to the backing storage. -/
theorem merkle_update_nil_identity {α : Type} (store : Nat → Option (Nat × Nat))
    (H : Nat → Nat → Nat) (hashF : α → Nat) (t : MerkleTreeRH) :
    merkle_tree_update store H hashF t [] = .ok (t, []) := by
  cases t with
  | mk root height =>
    cases height with
    | zero => rfl
    | succ h => rfl

/-! ## Claim C7: the `is_valid` hook call -/

/-- C7: the custom-validation hook `is_valid` accepts every update, yet one
iteration of `Committee.run` on an available state update never consults it:
the single-argument call of the two-parameter hook at `committee.py` line 206
raises `TypeError`, the `except Exception` handler retries, `next_batch_id`
does not advance, nothing is signed or sent, and nothing is persisted. -/
theorem run_iteration_never_reaches_is_valid {α β : Type} (cfg : CommitteeConfig)
    (store : String → Option CommitteeBatchInfo)
    (merkle_store : Nat → Option (Nat × Nat)) (H : Nat → Nat → Nat)
    (hvault : α → Nat) (horder : β → Nat) (gw : Except Unit Nat)
    (validate_orders : Bool) (b : Int) (su : StateUpdate α β) :
    is_valid su b = true ∧
    run_iteration cfg store merkle_store H hvault horder gw validate_orders b
      (some su) = ⟨b, none, noEffects⟩ :=
  ⟨rfl, rfl⟩

/-- A minimal concrete state update (no modifications, genesis predecessor)
used to evaluate the committee embedding at explicit inputs. -/
def suEx : StateUpdate Unit Unit :=
  ⟨[], [], 7, 9, -1⟩

def cfgEx : CommitteeConfig := ⟨0, 0⟩

def prevEx : CommitteeBatchInfo := ⟨7, 9, -1⟩

def storeEx : String → Option CommitteeBatchInfo :=
  fun k => if k = "committee_batch_info:-1" then some prevEx else none

/-- C7 evaluation at the failing input: batch 0, an available state update;
the hook would accept, the iteration retries batch 0 with no effects. -/
theorem run_iteration_never_reaches_is_valid_ev :
    is_valid suEx 0 = true ∧
    run_iteration cfgEx storeEx (fun _ => none) (fun _ _ => 0) (fun _ => 0)
      (fun _ => 0) (.error ()) false 0 (some suEx) = ⟨0, none, noEffects⟩ :=
  run_iteration_never_reaches_is_valid cfgEx storeEx (fun _ => none) (fun _ _ => 0)
    (fun _ => 0) (fun _ => 0) (.error ()) false 0 suEx

/-! ## Claim C6: a missing `order_tree_height` gateway operation is "no override" -/

/-- C6: when the gateway's `order_tree_height` call fails with the
not-implemented (`BadRequest`) error, the committee uses the locally
configured `ORDERS_MERKLE_HEIGHT` as the trades height in the signed claim,
and `validate_data_availability` completes normally, returning the signature
over that claim (given that the recomputed roots check out as the validation
mode requires). -/
theorem committee_no_height_override {α β : Type} (cfg : CommitteeConfig)
    (store : String → Option CommitteeBatchInfo)
    (merkle_store : Nat → Option (Nat × Nat)) (H : Nat → Nat → Nat)
    (hvault : α → Nat) (horder : β → Nat) (batch_id : Int)
    (su : StateUpdate α β) (validate_orders : Bool) (prev : CommitteeBatchInfo)
    (vops : List (MOp α)) (oops : List (MOp β))
    (hprev : store (committee_batch_info_key su.prev_batch_id) = some prev)
    (hv : merkle_update merkle_store H hvault cfg.vaults_merkle_height
      prev.vaults_root su.vaults = .ok (su.vault_root, vops))
    (ho : merkle_update merkle_store H horder cfg.orders_merkle_height
      prev.orders_root su.orders = .ok (su.order_root, oops)) :
    (validate_data_availability cfg store merkle_store H hvault horder
        (.error ()) batch_id su validate_orders).1
      = .ok (sign_hash_input (hash_availability_claim
          (u256be su.vault_root) cfg.vaults_merkle_height
          (u256be su.order_root) cfg.orders_merkle_height
          (prev.sequence_number + 1).toNat),
        hash_availability_claim (u256be su.vault_root) cfg.vaults_merkle_height
          (u256be su.order_root) cfg.orders_merkle_height
          (prev.sequence_number + 1).toNat) := by
  cases validate_orders with
  | false => simp [validate_data_availability, hprev, hv]
  | true => simp [validate_data_availability, hprev, hv, ho]

/-- C6 witness: a concrete batch (heights 0, empty modifications, genesis
predecessor) with the gateway failing the `order_tree_height` call. -/
theorem committee_no_height_override_witness :
    (validate_data_availability cfgEx storeEx (fun _ => none) (fun _ _ => 0)
        (fun _ => 0) (fun _ => 0) (.error ()) 0 suEx false).1
      = .ok (sign_hash_input (hash_availability_claim (u256be 7) 0 (u256be 9) 0
          ((-1 + 1 : Int)).toNat),
        hash_availability_claim (u256be 7) 0 (u256be 9) 0 ((-1 + 1 : Int)).toNat) :=
  committee_no_height_override cfgEx storeEx (fun _ => none) (fun _ _ => 0)
    (fun _ => 0) (fun _ => 0) 0 suEx false prevEx [] [] (by decide) (by decide)
    (by decide)

/-! ## Claim C5: order-root mismatch under full validation persists nothing -/

/-- C5: with `validate_orders = true`, when the recomputed order root
differs from `state_update.order_root` (the vault root checking out),
`validate_data_availability` aborts with the order-root-mismatch assertion
and produces no effects at all: the deferred Merkle cache is never flushed,
no value is written under `committee_batch_info:{batch_id}`, and no
signature is produced. -/
theorem committee_order_mismatch_aborts {α β : Type} (cfg : CommitteeConfig)
    (store : String → Option CommitteeBatchInfo)
    (merkle_store : Nat → Option (Nat × Nat)) (H : Nat → Nat → Nat)
    (hvault : α → Nat) (horder : β → Nat) (gw : Except Unit Nat)
    (batch_id : Int) (su : StateUpdate α β) (prev : CommitteeBatchInfo)
    (vops : List (MOp α)) (orr : Nat) (oops : List (MOp β))
    (hprev : store (committee_batch_info_key su.prev_batch_id) = some prev)
    (hv : merkle_update merkle_store H hvault cfg.vaults_merkle_height
      prev.vaults_root su.vaults = .ok (su.vault_root, vops))
    (ho : merkle_update merkle_store H horder cfg.orders_merkle_height
      prev.orders_root su.orders = .ok (orr, oops))
    (hne : orr ≠ su.order_root) :
    validate_data_availability cfg store merkle_store H hvault horder gw
        batch_id su true = (.error .orderRootMismatch, noEffects) ∧
    (validate_data_availability cfg store merkle_store H hvault horder gw
        batch_id su true).2.batch_info_writes = [] := by
  constructor
  · simp [validate_data_availability, hprev, hv, ho, hne]
  · simp [validate_data_availability, hprev, hv, ho, hne, noEffects]

/-- C5 witness: a concrete batch (heights 0, empty modifications) whose
update carries an order root different from the recomputed one. -/
theorem committee_order_mismatch_aborts_witness :
    validate_data_availability cfgEx storeEx (fun _ => none) (fun _ _ => 0)
        (fun _ => (0 : Nat)) (fun _ => (0 : Nat)) (.error ()) 0
        ({ suEx with order_root := 5 } : StateUpdate Unit Unit) true
      = (.error .orderRootMismatch, noEffects) :=
  (committee_order_mismatch_aborts cfgEx storeEx (fun _ => none) (fun _ _ => 0)
    (fun _ => 0) (fun _ => 0) (.error ()) 0 { suEx with order_root := 5 } prevEx
    [] 9 [] (by decide) (by decide) (by decide) (by decide)).1

/-! ## Claim C1: the availability claim and what is actually signed -/

/-- The genesis vault root for `VAULTS_MERKLE_HEIGHT = 31`, asserted in
`committee_test.py` (`test_initialization`). -/
def S1_VAULTS_ROOT : Nat :=
  0x0075364111a7a336756626d19fc8ec8df6328a5e63681c68ffaa312f6bf98c5c

/-- The genesis order root for `ORDERS_MERKLE_HEIGHT = 63`, asserted in
`committee_test.py` (`test_initialization`). -/
def S1_ORDERS_ROOT : Nat :=
  0x01bb0b0bdb803c733cf692a324a31e8e7749a9fdfb597d74e71c604795e659ed

/-- C1 (amended): the availability-claim digest handed to the signer is the
Keccak-256 of the 160-byte concatenation
`vaults_root[32] ++ vaults_height[u256 BE] ++ orders_root[32] ++
trades_height[u256 BE] ++ sequence_number[u256 BE]`, and the committee signs
this 32-byte Keccak output itself (via `eth.Account._sign_hash`), with no
reduction modulo `2^251`. -/
theorem availability_claim_layout_and_signed (vr orr : List Nat) (vh th sn : Nat)
    (h32v : vr.length = 32) (h32o : orr.length = 32) :
    (vr ++ u256be vh ++ orr ++ u256be th ++ u256be sn).length = 160 ∧
    hash_availability_claim vr vh orr th sn
      = keccak256 (vr ++ u256be vh ++ orr ++ u256be th ++ u256be sn) ∧
    sign_hash_input (hash_availability_claim vr vh orr th sn)
      = hash_availability_claim vr vh orr th sn := by
  refine ⟨?_, rfl, rfl⟩
  simp [u256be, h32v, h32o]

/-- C1 witness: the layout and unreduced-signing facts at the genesis-root
inputs of `committee_test.py`, heights `(31, 63)`, sequence number `0`. -/
theorem availability_claim_layout_and_signed_witness :
    (u256be S1_VAULTS_ROOT ++ u256be 31 ++ u256be S1_ORDERS_ROOT ++ u256be 63 ++
      u256be 0).length = 160 ∧
    hash_availability_claim (u256be S1_VAULTS_ROOT) 31 (u256be S1_ORDERS_ROOT) 63 0
      = keccak256 (u256be S1_VAULTS_ROOT ++ u256be 31 ++ u256be S1_ORDERS_ROOT ++
          u256be 63 ++ u256be 0) ∧
    sign_hash_input (hash_availability_claim (u256be S1_VAULTS_ROOT) 31
        (u256be S1_ORDERS_ROOT) 63 0)
      = hash_availability_claim (u256be S1_VAULTS_ROOT) 31 (u256be S1_ORDERS_ROOT)
          63 0 :=
  availability_claim_layout_and_signed (u256be S1_VAULTS_ROOT)
    (u256be S1_ORDERS_ROOT) 31 63 0 (by decide) (by decide)

/-! ## Claim C9: the Pedersen hash -/

theorem ec_add_aff_x_lt (pt1 pt2 : Nat × Nat) :
    (ec_add_aff pt1 pt2).1 < FIELD_PRIME := by
  have hp : 0 < FIELD_PRIME := by
    rw [FIELD_PRIME]
    positivity
  exact Nat.mod_lt _ hp

theorem pedersen_point_loop_lt (pts : List (Nat × Nat)) :
    ∀ (x : Nat) (point v : Nat × Nat), point.1 < FIELD_PRIME →
      pedersen_point_loop x point pts = .ok v → v.1 < FIELD_PRIME := by
  induction pts with
  | nil =>
    intro x point v hlt hok
    rw [pedersen_point_loop] at hok
    by_cases h0 : x = 0
    · rw [if_pos h0] at hok
      cases hok
      exact hlt
    · rw [if_neg h0] at hok
      cases hok
  | cons pt rest ih =>
    intro x point v hlt hok
    rw [pedersen_point_loop] at hok
    by_cases hcol : point.1 = pt.1
    · rw [if_pos hcol] at hok
      cases hok
    · rw [if_neg hcol] at hok
      apply ih (x / 2) _ v _ hok
      by_cases hbit : x % 2 = 1
      · rw [if_pos hbit]
        exact ec_add_aff_x_lt point pt
      · rw [if_neg hbit]
        exact hlt

theorem pedersen_elem_loop_lt (cps : List (Nat × Nat)) (elems : List Nat) :
    ∀ (i : Nat) (point v : Nat × Nat), point.1 < FIELD_PRIME →
      pedersen_elem_loop cps i point elems = .ok v → v.1 < FIELD_PRIME := by
  induction elems with
  | nil =>
    intro i point v hlt hok
    rw [pedersen_elem_loop] at hok
    cases hok
    exact hlt
  | cons x rest ih =>
    intro i point v hlt hok
    rw [pedersen_elem_loop] at hok
    by_cases hx : x < FIELD_PRIME
    · rw [if_pos hx] at hok
      by_cases hlen : ((cps.drop (2 + i * N_ELEMENT_BITS_HASH)).take
          N_ELEMENT_BITS_HASH).length = N_ELEMENT_BITS_HASH
      · rw [if_pos hlen] at hok
        cases hpl : pedersen_point_loop x point
            ((cps.drop (2 + i * N_ELEMENT_BITS_HASH)).take N_ELEMENT_BITS_HASH) with
        | error e =>
          rw [hpl] at hok
          cases hok
        | ok point2 =>
          rw [hpl] at hok
          exact ih (i + 1) point2 v (pedersen_point_loop_lt _ _ _ _ hlt hpl) hok
      · rw [if_neg hlen] at hok
        cases hok
    · rw [if_neg hx] at hok
      cases hok

theorem pedersen_elem_loop_not_ok (cps : List (Nat × Nat)) (elems : List Nat) :
    ∀ (i : Nat) (point : Nat × Nat), (∃ e ∈ elems, FIELD_PRIME ≤ e) →
      ∀ v, pedersen_elem_loop cps i point elems ≠ .ok v := by
  induction elems with
  | nil =>
    intro i point hbig v
    rcases hbig with ⟨e, he, _⟩
    cases he
  | cons x rest ih =>
    intro i point hbig v hok
    rw [pedersen_elem_loop] at hok
    by_cases hx : x < FIELD_PRIME
    · rw [if_pos hx] at hok
      rcases hbig with ⟨e, he, hge⟩
      rcases List.mem_cons.mp he with rfl | hmem
      · omega
      by_cases hlen : ((cps.drop (2 + i * N_ELEMENT_BITS_HASH)).take
          N_ELEMENT_BITS_HASH).length = N_ELEMENT_BITS_HASH
      · rw [if_pos hlen] at hok
        cases hpl : pedersen_point_loop x point
            ((cps.drop (2 + i * N_ELEMENT_BITS_HASH)).take N_ELEMENT_BITS_HASH) with
        | error e2 =>
          rw [hpl] at hok
          cases hok
        | ok point2 =>
          rw [hpl] at hok
          exact ih (i + 1) point2 ⟨e, hmem, hge⟩ v hok
      · rw [if_neg hlen] at hok
        cases hok
    · rw [if_neg hx] at hok
      cases hok

/-- C9: `pedersen_hash` on a pair of inputs is a pure function whose
successful results lie in `[0, FIELD_PRIME)` (for any constant-points table
whose initial accumulator has an in-range x-coordinate), it scans each
element's 252 bits LSB-to-MSB adding the slice's constant point exactly when
the bit is 1 with the `acc.x != pt.x` assertion at every step (this is
`pedersen_point_loop`/`pedersen_elem_loop` per the source), and an input
outside `[0, FIELD_PRIME)` is a hard error: a first element out of range
fails the range assertion immediately, and a second element out of range can
never produce a result. -/
theorem pedersen_hash_range_and_errors :
    (∀ (cps : List (Nat × Nat)) (p0 : Nat × Nat) (rest : List (Nat × Nat))
        (x y v : Nat), cps = p0 :: rest → p0.1 < FIELD_PRIME →
        pedersen_hash cps [x, y] = .ok v → v < FIELD_PRIME) ∧
    (∀ (p0 : Nat × Nat) (rest : List (Nat × Nat)) (x y : Nat), FIELD_PRIME ≤ x →
        pedersen_hash (p0 :: rest) [x, y] = .error .inputRange) ∧
    (∀ (cps : List (Nat × Nat)) (x y v : Nat), FIELD_PRIME ≤ y →
        pedersen_hash cps [x, y] ≠ .ok v) := by
  refine ⟨?_, ?_, ?_⟩
  · intro cps p0 rest x y v hcps hp0 hok
    subst hcps
    rw [pedersen_hash, pedersen_hash_as_point] at hok
    cases hpt : pedersen_elem_loop (p0 :: rest) 0 p0 [x, y] with
    | error e =>
      rw [hpt] at hok
      cases hok
    | ok q =>
      rw [hpt] at hok
      cases hok
      exact pedersen_elem_loop_lt _ _ _ _ _ hp0 hpt
  · intro p0 rest x y hge
    rw [pedersen_hash, pedersen_hash_as_point, pedersen_elem_loop,
      if_neg (by omega)]
    rfl
  · intro cps x y v hge hok
    rw [pedersen_hash] at hok
    cases cps with
    | nil =>
      rw [pedersen_hash_as_point] at hok
      cases hok
    | cons p0 rest =>
      rw [pedersen_hash_as_point] at hok
      cases hpt : pedersen_elem_loop (p0 :: rest) 0 p0 [x, y] with
      | error e =>
        rw [hpt] at hok
        cases hok
      | ok q =>
        exact pedersen_elem_loop_not_ok _ _ _ _ ⟨y, by simp, hge⟩ q hpt

/-- A concrete constant-points table (506 entries, all x-coordinates
distinct from the accumulator path of the zero inputs) used to evaluate the
Pedersen embedding at explicit inputs. -/
def toyPedersenTable : List (Nat × Nat) :=
  (List.range 506).map (fun i => (i + 10, 1))

set_option maxRecDepth 1000000 in
/-- C9 witness: at the concrete table and inputs `(0, 0)` the hash evaluates
to `.ok 10` with `10 < FIELD_PRIME` (via the range part of the theorem), and
an out-of-range first input is the range error (via the error part). -/
theorem pedersen_hash_range_and_errors_witness :
    pedersen_hash toyPedersenTable [0, 0] = .ok 10 ∧
    10 < FIELD_PRIME ∧
    pedersen_hash toyPedersenTable [FIELD_PRIME, 0] = .error .inputRange := by
  refine ⟨by decide, ?_, ?_⟩
  · exact pedersen_hash_range_and_errors.1 toyPedersenTable (10, 1)
      ((List.range 505).map (fun i => (i + 11, 1))) 0 0 10 (by decide) (by decide)
      (by decide)
  · exact pedersen_hash_range_and_errors.2.1 (10, 1)
      ((List.range 505).map (fun i => (i + 11, 1))) FIELD_PRIME 0 (by decide)

/-! ## Claim C4: authentication paths verify -/

/-- C4: for every well-formed Merkle tree of height `h` in the fact store
and every leaf index `i < 2^h`, `get_authentication_path` returns exactly
`h` digests, ordered from the leaf's sibling first up to the root's
child-sibling last, and `verify_path` accepts the tree root, the index, the
stored leaf hash at that index, and that path. -/
theorem merkle_auth_path_verifies (store : Nat → Option (Nat × Nat))
    (H : Nat → Nat → Nat) (h root : Nat) (ht : TreeOk store H h root)
    (i : Nat) (hi : i < 2 ^ h) :
    ∃ path lh, get_authentication_path store h root i = .ok path ∧
      path.length = h ∧ get_leaf_hash store h root i = .ok lh ∧
      verify_path root i lh path H = true := by
  induction ht generalizing i with
  | leaf root =>
    refine ⟨[], root, rfl, rfl, rfl, ?_⟩
    simp [verify_path, calc_root, calcRootAux]
  | node height l r root hstore hroot htl htr ihl ihr =>
    have hpow : 2 ^ (height + 1) = 2 ^ height + 2 ^ height := by
      rw [pow_succ]
      omega
    by_cases hm : 2 ^ height ≤ i
    · obtain ⟨path, lh, hap, hlen, hlh, hver⟩ := ihr (i - 2 ^ height) (by omega)
      refine ⟨path ++ [l], lh, ?_, ?_, ?_, ?_⟩
      · simp only [get_authentication_path, hstore, if_pos hm, hap]
      · simp [hlen]
      · simp only [get_leaf_hash, hstore, if_pos hm, hlh]
      · have hr : r = calc_root (i - 2 ^ height) lh path H :=
          of_decide_eq_true hver
        have hlenrev : path.reverse.length = height := by simp [hlen]
        rw [verify_path, calc_root, List.reverse_append, List.reverse_singleton,
          List.singleton_append, calcRootAux, hlenrev, if_pos hm]
        rw [calc_root] at hr
        rw [← hr, ← hroot]
        exact decide_eq_true rfl
    · obtain ⟨path, lh, hap, hlen, hlh, hver⟩ := ihl i (by omega)
      refine ⟨path ++ [r], lh, ?_, ?_, ?_, ?_⟩
      · simp only [get_authentication_path, hstore, if_neg hm, hap]
      · simp [hlen]
      · simp only [get_leaf_hash, hstore, if_neg hm, hlh]
      · have hl : l = calc_root i lh path H := of_decide_eq_true hver
        have hlenrev : path.reverse.length = height := by simp [hlen]
        rw [verify_path, calc_root, List.reverse_append, List.reverse_singleton,
          List.singleton_append, calcRootAux, hlenrev, if_neg hm]
        rw [calc_root] at hl
        rw [← hl, ← hroot]
        exact decide_eq_true rfl

/-- A concrete node-hash function and a concrete height-2 fact store
(leaf digests 1, 2, 3, 4; internal nodes content-addressed by `hC4`). -/
def hC4 : Nat → Nat → Nat := fun a b => 2 * a + 3 * b + 5

def storeC4 : Nat → Option (Nat × Nat) := fun k =>
  if k = 100 then some (13, 23)
  else if k = 13 then some (1, 2)
  else if k = 23 then some (3, 4)
  else none

theorem treeOkC4 : TreeOk storeC4 hC4 2 100 :=
  .node 1 13 23 100 rfl rfl
    (.node 0 1 2 13 rfl rfl (.leaf 1) (.leaf 2))
    (.node 0 3 4 23 rfl rfl (.leaf 3) (.leaf 4))

/-- C4 witness: the round trip at the concrete height-2 tree and index 2. -/
theorem merkle_auth_path_verifies_witness :
    2 < 2 ^ 2 ∧
    ∃ path lh, get_authentication_path storeC4 2 100 2 = .ok path ∧
      path.length = 2 ∧ get_leaf_hash storeC4 2 100 2 = .ok lh ∧
      verify_path 100 2 lh path hC4 = true :=
  ⟨by decide, merkle_auth_path_verifies storeC4 hC4 2 100 treeOkC4 2 (by decide)⟩

/-! ## Claim C3: `update` depends only on the last-wins index map -/

theorem lastWins_isSome_of_mem {α : Type} {M : List (Nat × α)} {q : Nat × α}
    (hq : q ∈ M) : (lastWins M q.1).isSome := by
  rw [lastWins]
  have hne : (M.filter (fun q2 => q2.1 == q.1)) ≠ [] :=
    List.ne_nil_of_mem (List.mem_filter.mpr ⟨hq, by simp⟩)
  cases hgl : (M.filter (fun q2 => q2.1 == q.1)).getLast? with
  | none => exact absurd (List.getLast?_eq_none_iff.mp hgl) hne
  | some x => simp

theorem eq_nil_iff_of_lastWins_eq {α : Type} {M₁ M₂ : List (Nat × α)}
    (h : lastWins M₁ = lastWins M₂) : M₁ = [] ↔ M₂ = [] := by
  constructor
  · intro h1
    cases hM : M₂ with
    | nil => rfl
    | cons x rest =>
      have hs := lastWins_isSome_of_mem (M := M₂) (q := x) (by rw [hM]; simp)
      rw [← h, h1] at hs
      simp [lastWins] at hs
  · intro h2
    cases hM : M₁ with
    | nil => rfl
    | cons x rest =>
      have hs := lastWins_isSome_of_mem (M := M₁) (q := x) (by rw [hM]; simp)
      rw [h, h2] at hs
      simp [lastWins] at hs

theorem lastWins_filter_lt {α : Type} (M : List (Nat × α)) (mid i : Nat) :
    lastWins (M.filter (fun q => decide (q.1 < mid))) i
      = if i < mid then lastWins M i else none := by
  unfold lastWins
  rw [List.filter_filter]
  by_cases hi : i < mid
  · rw [if_pos hi]
    have hfc : (M.filter (fun q => q.1 == i && decide (q.1 < mid)))
        = M.filter (fun q => q.1 == i) := by
      apply List.filter_congr
      intro q _
      by_cases hq : q.1 = i
      · simp [hq, hi]
      · simp [hq]
    rw [hfc]
  · rw [if_neg hi]
    have hnil : (M.filter (fun q => q.1 == i && decide (q.1 < mid))) = [] := by
      rw [List.filter_eq_nil_iff]
      intro q _
      simp only [Bool.and_eq_true, beq_iff_eq, decide_eq_true_eq, not_and]
      intro hq
      omega
    rw [hnil]
    rfl

theorem lastWins_filter_ge_map {α : Type} (M : List (Nat × α)) (mid i : Nat) :
    lastWins ((M.filter (fun q => decide (mid ≤ q.1))).map
      (fun q => (q.1 - mid, q.2))) i = lastWins M (i + mid) := by
  unfold lastWins
  rw [List.filter_map, List.getLast?_map, List.filter_filter, Option.map_map]
  have hfc : (M.filter (fun a =>
      ((fun q => q.1 == i) ∘ (fun q => (q.1 - mid, q.2))) a && decide (mid ≤ a.1)))
      = M.filter (fun q => q.1 == i + mid) := by
    apply List.filter_congr
    intro q _
    show ((q.1 - mid == i) && decide (mid ≤ q.1)) = (q.1 == i + mid)
    by_cases hq : q.1 = i + mid
    · have h1 : q.1 - mid = i := by omega
      have h2 : mid ≤ q.1 := by omega
      simp [h1, h2, hq]
    · by_cases hge : mid ≤ q.1
      · have h1 : q.1 - mid ≠ i := by omega
        simp [h1, hq, hge]
      · simp [hge, hq]
  rw [hfc]
  rfl

/-- C3: the root returned by `update` depends only on the index-to-leaf map
obtained by keeping, for each index, the last entry of the modification list
with that index: two modification lists with indices in range and equal
last-wins maps (in particular, permutations of each other on distinct
indices, or deduplications keeping the last entry of each repeated index)
produce identical results up to the operation trace — the same new root, or
the same failure. -/
theorem merkle_update_lastWins {α : Type} (store : Nat → Option (Nat × Nat))
    (H : Nat → Nat → Nat) (hashF : α → Nat) (h : Nat) :
    ∀ (root : Nat) (M₁ M₂ : List (Nat × α)),
      (∀ q ∈ M₁, q.1 < 2 ^ h) → (∀ q ∈ M₂, q.1 < 2 ^ h) →
      lastWins M₁ = lastWins M₂ →
      (merkle_update store H hashF h root M₁).map (fun x => x.1)
        = (merkle_update store H hashF h root M₂).map (fun x => x.1) := by
  induction h with
  | zero =>
    intro root M₁ M₂ hr₁ hr₂ hmap
    by_cases h1 : M₁ = []
    · have h2 : M₂ = [] := (eq_nil_iff_of_lastWins_eq hmap).mp h1
      subst h1
      subst h2
      rfl
    · have h2 : M₂ ≠ [] := fun hh => h1 ((eq_nil_iff_of_lastWins_eq hmap).mpr hh)
      obtain ⟨m₁, rest₁, rfl⟩ := List.exists_cons_of_ne_nil h1
      obtain ⟨m₂, rest₂, rfl⟩ := List.exists_cons_of_ne_nil h2
      have hall₁ : ∀ q ∈ m₁ :: rest₁, q.1 = 0 := by
        intro q hq
        have := hr₁ q hq
        omega
      have hall₂ : ∀ q ∈ m₂ :: rest₂, q.1 = 0 := by
        intro q hq
        have := hr₂ q hq
        omega
      have hf₁ : (m₁ :: rest₁).filter (fun q => q.1 == 0) = m₁ :: rest₁ :=
        List.filter_eq_self.mpr (fun q hq => by simp [hall₁ q hq])
      have hf₂ : (m₂ :: rest₂).filter (fun q => q.1 == 0) = m₂ :: rest₂ :=
        List.filter_eq_self.mpr (fun q hq => by simp [hall₂ q hq])
      have hlast := congrFun hmap 0
      rw [lastWins, lastWins, hf₁, hf₂,
        List.getLast?_eq_getLast _ (List.cons_ne_nil m₁ rest₁),
        List.getLast?_eq_getLast _ (List.cons_ne_nil m₂ rest₂)] at hlast
      have hsnd : ((m₁ :: rest₁).getLast (List.cons_ne_nil m₁ rest₁)).2
          = ((m₂ :: rest₂).getLast (List.cons_ne_nil m₂ rest₂)).2 := by
        simpa using hlast
      have hidx₁ : ((m₁ :: rest₁).getLast (List.cons_ne_nil m₁ rest₁)).1 = 0 :=
        hall₁ _ (List.getLast_mem _)
      have hidx₂ : ((m₂ :: rest₂).getLast (List.cons_ne_nil m₂ rest₂)).1 = 0 :=
        hall₂ _ (List.getLast_mem _)
      simp only [merkle_update, hidx₁, hidx₂, if_pos, Except.map, hsnd]
  | succ n ih =>
    intro root M₁ M₂ hr₁ hr₂ hmap
    by_cases h1 : M₁ = []
    · have h2 : M₂ = [] := (eq_nil_iff_of_lastWins_eq hmap).mp h1
      subst h1
      subst h2
      rfl
    · have h2 : M₂ ≠ [] := fun hh => h1 ((eq_nil_iff_of_lastWins_eq hmap).mpr hh)
      obtain ⟨m₁, rest₁, rfl⟩ := List.exists_cons_of_ne_nil h1
      obtain ⟨m₂, rest₂, rfl⟩ := List.exists_cons_of_ne_nil h2
      cases hst : store root with
      | none => simp only [merkle_update, hst]
      | some lr =>
        obtain ⟨l, r⟩ := lr
        set L₁ := (m₁ :: rest₁).filter (fun q => decide (q.1 < 2 ^ n)) with hL₁def
        set L₂ := (m₂ :: rest₂).filter (fun q => decide (q.1 < 2 ^ n)) with hL₂def
        set R₁ := ((m₁ :: rest₁).filter (fun q => decide (2 ^ n ≤ q.1))).map
          (fun q => (q.1 - 2 ^ n, q.2)) with hR₁def
        set R₂ := ((m₂ :: rest₂).filter (fun q => decide (2 ^ n ≤ q.1))).map
          (fun q => (q.1 - 2 ^ n, q.2)) with hR₂def
        have hLmap : lastWins L₁ = lastWins L₂ := by
          funext i
          rw [hL₁def, hL₂def, lastWins_filter_lt, lastWins_filter_lt,
            congrFun hmap i]
        have hRmap : lastWins R₁ = lastWins R₂ := by
          funext i
          rw [hR₁def, hR₂def, lastWins_filter_ge_map, lastWins_filter_ge_map,
            congrFun hmap (i + 2 ^ n)]
        have hLr₁ : ∀ q ∈ L₁, q.1 < 2 ^ n := by
          intro q hq
          have := (List.mem_filter.mp (hL₁def ▸ hq)).2
          simpa using this
        have hLr₂ : ∀ q ∈ L₂, q.1 < 2 ^ n := by
          intro q hq
          have := (List.mem_filter.mp (hL₂def ▸ hq)).2
          simpa using this
        have hRr₁ : ∀ q ∈ R₁, q.1 < 2 ^ n := by
          intro q hq
          rw [hR₁def] at hq
          obtain ⟨p, hp, rfl⟩ := List.mem_map.mp hq
          have hmem := List.mem_filter.mp hp
          have h1 := hr₁ p hmem.1
          have h2 : 2 ^ n ≤ p.1 := by simpa using hmem.2
          have h3 : 2 ^ (n + 1) = 2 ^ n + 2 ^ n := by
            rw [pow_succ]
            omega
          simp only []
          omega
        have hRr₂ : ∀ q ∈ R₂, q.1 < 2 ^ n := by
          intro q hq
          rw [hR₂def] at hq
          obtain ⟨p, hp, rfl⟩ := List.mem_map.mp hq
          have hmem := List.mem_filter.mp hp
          have h1 := hr₂ p hmem.1
          have h2 : 2 ^ n ≤ p.1 := by simpa using hmem.2
          have h3 : 2 ^ (n + 1) = 2 ^ n + 2 ^ n := by
            rw [pow_succ]
            omega
          simp only []
          omega
        simp only [merkle_update, hst]
        rw [← hL₁def, ← hL₂def, ← hR₁def, ← hR₂def]
        by_cases hL1 : L₁ = []
        · have hL2 : L₂ = [] := (eq_nil_iff_of_lastWins_eq hLmap).mp hL1
          have eL1 : L₁.isEmpty = true := by
            rw [List.isEmpty_eq_true]
            exact hL1
          have eL2 : L₂.isEmpty = true := by
            rw [List.isEmpty_eq_true]
            exact hL2
          conv_lhs => rw [if_pos eL1]
          conv_rhs => rw [if_pos eL2]
          have hres := ih r R₁ R₂ hRr₁ hRr₂ hRmap
          cases e₁ : merkle_update store H hashF n r R₁ with
          | error err₁ =>
            cases e₂ : merkle_update store H hashF n r R₂ with
            | error err₂ =>
              rw [e₁, e₂] at hres
              simp only [Except.map] at hres ⊢
              exact hres
            | ok v₂ =>
              rw [e₁, e₂] at hres
              simp [Except.map] at hres
          | ok v₁ =>
            cases e₂ : merkle_update store H hashF n r R₂ with
            | error err₂ =>
              rw [e₁, e₂] at hres
              simp [Except.map] at hres
            | ok v₂ =>
              rw [e₁, e₂] at hres
              simp only [Except.map, Except.ok.injEq] at hres ⊢
              rw [hres]
        · have hL2 : L₂ ≠ [] := fun hh => hL1 ((eq_nil_iff_of_lastWins_eq hLmap).mpr hh)
          have eL1 : ¬ (L₁.isEmpty = true) := by
            rw [List.isEmpty_eq_true]
            exact hL1
          have eL2 : ¬ (L₂.isEmpty = true) := by
            rw [List.isEmpty_eq_true]
            exact hL2
          conv_lhs => rw [if_neg eL1]
          conv_rhs => rw [if_neg eL2]
          by_cases hR1 : R₁ = []
          · have hR2 : R₂ = [] := (eq_nil_iff_of_lastWins_eq hRmap).mp hR1
            have eR1 : R₁.isEmpty = true := by
              rw [List.isEmpty_eq_true]
              exact hR1
            have eR2 : R₂.isEmpty = true := by
              rw [List.isEmpty_eq_true]
              exact hR2
            conv_lhs => rw [if_pos eR1]
            conv_rhs => rw [if_pos eR2]
            have hres := ih l L₁ L₂ hLr₁ hLr₂ hLmap
            cases e₁ : merkle_update store H hashF n l L₁ with
            | error err₁ =>
              cases e₂ : merkle_update store H hashF n l L₂ with
              | error err₂ =>
                rw [e₁, e₂] at hres
                simp only [Except.map] at hres ⊢
                exact hres
              | ok v₂ =>
                rw [e₁, e₂] at hres
                simp [Except.map] at hres
            | ok v₁ =>
              cases e₂ : merkle_update store H hashF n l L₂ with
              | error err₂ =>
                rw [e₁, e₂] at hres
                simp [Except.map] at hres
              | ok v₂ =>
                rw [e₁, e₂] at hres
                simp only [Except.map, Except.ok.injEq] at hres ⊢
                rw [hres]
          · have hR2 : R₂ ≠ [] := fun hh => hR1 ((eq_nil_iff_of_lastWins_eq hRmap).mpr hh)
            have eR1 : ¬ (R₁.isEmpty = true) := by
              rw [List.isEmpty_eq_true]
              exact hR1
            have eR2 : ¬ (R₂.isEmpty = true) := by
              rw [List.isEmpty_eq_true]
              exact hR2
            conv_lhs => rw [if_neg eR1]
            conv_rhs => rw [if_neg eR2]
            have hresL := ih l L₁ L₂ hLr₁ hLr₂ hLmap
            have hresR := ih r R₁ R₂ hRr₁ hRr₂ hRmap
            cases e₁ : merkle_update store H hashF n l L₁ with
            | error err₁ =>
              cases e₂ : merkle_update store H hashF n l L₂ with
              | error err₂ =>
                rw [e₁, e₂] at hresL
                simp only [Except.map] at hresL ⊢
                exact hresL
              | ok v₂ =>
                rw [e₁, e₂] at hresL
                simp [Except.map] at hresL
            | ok v₁ =>
              cases e₂ : merkle_update store H hashF n l L₂ with
              | error err₂ =>
                rw [e₁, e₂] at hresL
                simp [Except.map] at hresL
              | ok v₂ =>
                rw [e₁, e₂] at hresL
                simp only [Except.map, Except.ok.injEq] at hresL
                cases f₁ : merkle_update store H hashF n r R₁ with
                | error err₁ =>
                  cases f₂ : merkle_update store H hashF n r R₂ with
                  | error err₂ =>
                    rw [f₁, f₂] at hresR
                    simp only [Except.map] at hresR ⊢
                    exact hresR
                  | ok w₂ =>
                    rw [f₁, f₂] at hresR
                    simp [Except.map] at hresR
                | ok w₁ =>
                  cases f₂ : merkle_update store H hashF n r R₂ with
                  | error err₂ =>
                    rw [f₁, f₂] at hresR
                    simp [Except.map] at hresR
                  | ok w₂ =>
                    rw [f₁, f₂] at hresR
                    simp only [Except.map, Except.ok.injEq] at hresR ⊢
                    rw [hresL, hresR]

/-- A concrete modification list with a repeated index (index 0 appears
twice; last entry wins). -/
def modsC3a : List (Nat × Nat) := [(0, 5), (3, 7), (0, 6)]

/-- The same modifications after last-wins deduplication and reordering. -/
def modsC3b : List (Nat × Nat) := [(3, 7), (0, 6)]

/-- C3 witness: the two concrete modification lists (same last-wins map,
different order and multiplicity) produce the same root on the concrete
height-2 tree. -/
theorem merkle_update_lastWins_witness :
    (merkle_update storeC4 hC4 (fun v => v) 2 100 modsC3a).map (fun x => x.1)
      = (merkle_update storeC4 hC4 (fun v => v) 2 100 modsC3b).map
          (fun x => x.1) := by
  have hmapEx : lastWins modsC3a = lastWins modsC3b := by
    funext i
    by_cases h0 : i = 0
    · subst h0
      decide
    · by_cases h3 : i = 3
      · subst h3
        decide
      · have e0 : ((0 : Nat) == i) = false :=
          beq_eq_false_iff_ne.mpr (fun hh => h0 hh.symm)
        have e3 : ((3 : Nat) == i) = false :=
          beq_eq_false_iff_ne.mpr (fun hh => h3 hh.symm)
        simp [lastWins, modsC3a, modsC3b, List.filter, e0, e3]
  exact merkle_update_lastWins storeC4 hC4 (fun v => v) 2 100 modsC3a modsC3b
    (by decide) (by decide) hmapEx

/-! ## Claim C1 (counterexample input): the committee signs the unreduced Keccak -/

set_option maxRecDepth 1000000 in
/-- C1 counterexample: at the concrete claim inputs of the committee's own
test fixture — the genesis roots of `committee_test.py`, heights `(31, 63)`,
sequence number `0` — the Keccak-256 claim digest is a 255-bit value, and
the message hash handed to the signer is that digest itself, *not* the
digest reduced modulo `N = 2^251`: the claim's "reduced mod N" clause is
false on the code. -/
theorem availability_claim_not_reduced_counterexample :
    bytesToNatBE (hash_availability_claim (u256be S1_VAULTS_ROOT) 31
        (u256be S1_ORDERS_ROOT) 63 0)
      = 16472763763772335620675469273576437956257376115998658302411711485185130294662 ∧
    sign_hash_input (hash_availability_claim (u256be S1_VAULTS_ROOT) 31
        (u256be S1_ORDERS_ROOT) 63 0)
      = hash_availability_claim (u256be S1_VAULTS_ROOT) 31 (u256be S1_ORDERS_ROOT)
          63 0 ∧
    bytesToNatBE (sign_hash_input (hash_availability_claim (u256be S1_VAULTS_ROOT)
        31 (u256be S1_ORDERS_ROOT) 63 0))
      ≠ bytesToNatBE (hash_availability_claim (u256be S1_VAULTS_ROOT) 31
          (u256be S1_ORDERS_ROOT) 63 0) % 2 ^ 251 :=
  ⟨by decide, rfl, by decide⟩


/-! ## Claim C8: the signing path does not use `mimic_ec_mult_air`

`sign` computes `k * EC_GEN` with the plain double-and-add `ec_mult` of
the modelled `math_utils.py`, while the verification path uses the
251-iteration `mimic_ec_mult_air` with its `0 < m < 2^251` entry assertion.
`doubleIterP` and `ec_multAux_pow2` settle, without any heavy evaluation,
that `ec_mult` succeeds on the power-of-two scalar `2^251` — a scalar every
`mimic_ec_mult_air` call rejects outright.
-/

def doubleIterP : Nat → EcPt → EcPt
  | 0, pt => pt
  | k + 1, pt => doubleIterP k (ec_double_pt pt)

theorem ec_multAux_pow2 (k : Nat) : ∀ (fuel : Nat) (pt : EcPt), 0 < fuel →
    ec_multAux (k + fuel) (2 ^ k) pt = some (doubleIterP k pt) := by
  induction k with
  | zero =>
    intro fuel pt hf
    obtain ⟨f, rfl⟩ : ∃ f, fuel = f + 1 := ⟨fuel - 1, by omega⟩
    rw [Nat.zero_add, ec_multAux, if_pos (pow_zero 2)]
    rfl
  | succ n ih =>
    intro fuel pt hf
    have hp : 0 < (2 : Nat) ^ n := pow_pos (by omega) n
    have h1 : (2 : Nat) ^ (n + 1) ≠ 1 := by rw [pow_succ]; omega
    have h2 : (2 : Nat) ^ (n + 1) % 2 = 0 := by rw [pow_succ]; omega
    have h3 : (2 : Nat) ^ (n + 1) / 2 = 2 ^ n := by rw [pow_succ]; omega
    have hs : n + 1 + fuel = (n + fuel) + 1 := by omega
    rw [hs, ec_multAux, if_neg h1, if_pos h2, h3]
    rw [ih fuel (ec_double_pt pt) hf]
    rfl

theorem ec_mult_pow251_isSome : (ec_mult (2 ^ 251) EC_GEN).isSome = true := by
  rw [ec_mult, show (600 : Nat) = 251 + 349 by norm_num,
    ec_multAux_pow2 251 349 (.aff EC_GEN.1 EC_GEN.2) (by omega)]
  rfl

set_option maxRecDepth 100000 in
/-- C8 counterexample: the scalar `k = 2^251` is drawable by `sign` as a
nonce (`2^251 < EC_ORDER`, so `k ∈ [1, EC_ORDER - 1]`); the signing path's
computation of `k * EC_GEN` (the plain `ec_mult` of line 109) produces a
result, while `mimic_ec_mult_air` — the routine the verification path
uses — rejects this `k` outright (its `0 < m < 2^251` entry assertion
fails), whichever shift point it is given: the signing and verification
paths do not run the same scalar-multiplication routine and do not agree on
which inputs fail. -/
theorem sign_path_not_mimic_counterexample :
    2 ^ 251 < EC_ORDER ∧
    (ec_mult (2 ^ 251) EC_GEN).isSome = true ∧
    mimic_ec_mult_air (2 ^ 251) EC_GEN SHIFT_POINT = .error .mimicRange ∧
    mimic_ec_mult_air (2 ^ 251) EC_GEN MINUS_SHIFT_POINT = .error .mimicRange :=
  ⟨by decide, ec_mult_pow251_isSome, by decide, by decide⟩

/-- C8 (amended): the signing path computes `k * EC_GEN` with the plain
double-and-add `ec_mult` (no shift point, no per-step assertions) while the
verification path uses `mimic_ec_mult_air`; the two routines differ — for
every scalar `m ≥ 2^251` (some of which `sign` may draw as nonces, since
`EC_ORDER > 2^251`) `mimic_ec_mult_air` fails its range assertion for every
point and shift, whereas the sign-path computation at `k = 2^251`
produces a result. -/
theorem sign_path_plain_mult_mimic_domain :
    (∀ (k : Nat) (point shift_point : Nat × Nat), 2 ^ 251 ≤ k →
        mimic_ec_mult_air k point shift_point = .error .mimicRange) ∧
    (ec_mult (2 ^ 251) EC_GEN).isSome = true := by
  constructor
  · intro k point shift_point hk
    rw [mimic_ec_mult_air, if_neg]
    intro hcon
    rcases hcon with ⟨-, hlt⟩
    have hb : (2 : Nat) ^ N_ELEMENT_BITS_ECDSA = 2 ^ 251 := rfl
    omega
  · exact ec_mult_pow251_isSome

/-- C8 witness for the amended theorem: the range rejection at the concrete
scalar `2^252`. -/
theorem sign_path_plain_mult_mimic_domain_witness :
    mimic_ec_mult_air (2 ^ 252) EC_GEN SHIFT_POINT = .error .mimicRange :=
  sign_path_plain_mult_mimic_domain.1 (2 ^ 252) EC_GEN SHIFT_POINT (by norm_num)

/-! ## Claim C2: sign/verify round trip and tampering

The concrete instance: message `1`, private key `1` (public key
`1 * EC_GEN = EC_GEN`), nonce `1`.  `sign` returns `r = EC_GEN.x`,
`w = 1 / (1 + r) mod EC_ORDER`; `verify` accepts the honest pair and
rejects the tampered message, but *also accepts* the tampered second
component `w' = EC_ORDER - w` (which lies in `[1, 2^251)` and differs from
`w`): the scheme is malleable in `s`, so the claim's universal
tampered-`s'` clause fails.

The three `verify` evaluations each run `mimic_ec_mult_air` (251 shifted
double-and-add iterations) several times; `mimicChunk` re-states 32
iterations of `mimicAux` as a total stepper, each 32-iteration chunk is
settled by `decide` on its literal intermediate states, and
`mimicChunk_glue` splices the chunks back into a full `mimicAux` run.
-/

def SIG_MSG : Nat := 1

def SIG_PRIV : Nat := 1

def SIG_K : Nat := 1

def SIG_R : Nat := EC_GEN.1

def SIG_W : Nat := div_mod SIG_K (SIG_MSG + SIG_R * SIG_PRIV) EC_ORDER

def SIG_W_NEG : Nat := EC_ORDER - SIG_W

theorem except_bind_ok {α β : Type} (a : α) (f : α → Except SigAssert β) :
    (Except.ok a : Except SigAssert α).bind f = f a := rfl

def mimicChunk : Nat → Nat → (Nat × Nat) → (Nat × Nat) →
    Option (Nat × (Nat × Nat) × (Nat × Nat))
  | 0, m, pt, acc => some (m, pt, acc)
  | k + 1, m, pt, acc =>
    if acc.1 = pt.1 then none
    else mimicChunk k (m / 2) (ec_double_aff pt)
      (if m % 2 = 1 then ec_add_aff acc pt else acc)

theorem mimicChunk_glue (k rest : Nat) : ∀ (m : Nat) (pt acc : Nat × Nat)
    (m2 : Nat) (pt2 acc2 : Nat × Nat),
    mimicChunk k m pt acc = some (m2, pt2, acc2) →
    mimicAux (k + rest) m pt acc = mimicAux rest m2 pt2 acc2 := by
  induction k with
  | zero =>
    intro m pt acc m2 pt2 acc2 h
    simp only [mimicChunk, Option.some.injEq, Prod.mk.injEq] at h
    obtain ⟨h1, h2, h3⟩ := h
    subst h1; subst h2; subst h3
    rw [Nat.zero_add]
  | succ n ih =>
    intro m pt acc m2 pt2 acc2 h
    rw [mimicChunk] at h
    by_cases hc : acc.1 = pt.1
    · rw [if_pos hc] at h
      exact Option.noConfusion h
    · rw [if_neg hc] at h
      have hs : n + 1 + rest = (n + rest) + 1 := by omega
      rw [hs, mimicAux, if_neg hc]
      exact ih _ _ _ _ _ _ h

set_option maxRecDepth 400000 in
set_option maxHeartbeats 4000000 in
theorem mc_z_1 : mimicChunk 32 0x1 (0x1ef15c18599971b7beced415a40f0c7deacfd9b0d1819e03d723d8bc943cfca, 0x5668060aa49730b7be4801df46ec62de53ecd11abe43a32873000c36e8dc1f) (0x49ee3eba8c1600700ee1b87eb599f16716b0b1022947733551fde4050ca6804, 0x435f301b4c439330cb92b62f915f12cb19def9d3f1fa93e2fbfa2d991efd977)
    = some (0x0, (0x3368873d2c5ca0673b9b17948f9125f80936f0604d50d5d5c7dc4df59f8f291, 0x7815aa21eb2464cb1aeadcde45636527b04f1e71ef40c9d6fcb1d4f2e6276ab), (0x54d0bfa58002da5d8147921572a62fc8a2bc2281e8f6de7b34785d805973e00, 0x65c75a17066725496907c435cff55a7eb0840885a3813da32b45bf5188ecf18)) := by decide

set_option maxRecDepth 400000 in
set_option maxHeartbeats 4000000 in
theorem mc_z_2 : mimicChunk 32 0x0 (0x3368873d2c5ca0673b9b17948f9125f80936f0604d50d5d5c7dc4df59f8f291, 0x7815aa21eb2464cb1aeadcde45636527b04f1e71ef40c9d6fcb1d4f2e6276ab) (0x54d0bfa58002da5d8147921572a62fc8a2bc2281e8f6de7b34785d805973e00, 0x65c75a17066725496907c435cff55a7eb0840885a3813da32b45bf5188ecf18)
    = some (0x0, (0x21016f29812923458c7eeeecb25a3c85ebb740d7d89501c491e19b04e4046f8, 0x2ebce8d8a8c5ab034822db290c30189e46087d3aa05e9274f66b811dcf1a6c7), (0x54d0bfa58002da5d8147921572a62fc8a2bc2281e8f6de7b34785d805973e00, 0x65c75a17066725496907c435cff55a7eb0840885a3813da32b45bf5188ecf18)) := by decide

set_option maxRecDepth 400000 in
set_option maxHeartbeats 4000000 in
theorem mc_z_3 : mimicChunk 32 0x0 (0x21016f29812923458c7eeeecb25a3c85ebb740d7d89501c491e19b04e4046f8, 0x2ebce8d8a8c5ab034822db290c30189e46087d3aa05e9274f66b811dcf1a6c7) (0x54d0bfa58002da5d8147921572a62fc8a2bc2281e8f6de7b34785d805973e00, 0x65c75a17066725496907c435cff55a7eb0840885a3813da32b45bf5188ecf18)
    = some (0x0, (0x22160d371f56777a27443a7e10652aa3e12225a8007c4fb424e0dfde1b45a6a, 0x1be72e63bc586699e174c40461b426b7d2ae7b9f4064f28a46ffc7d61198b14), (0x54d0bfa58002da5d8147921572a62fc8a2bc2281e8f6de7b34785d805973e00, 0x65c75a17066725496907c435cff55a7eb0840885a3813da32b45bf5188ecf18)) := by decide

set_option maxRecDepth 400000 in
set_option maxHeartbeats 4000000 in
theorem mc_z_4 : mimicChunk 32 0x0 (0x22160d371f56777a27443a7e10652aa3e12225a8007c4fb424e0dfde1b45a6a, 0x1be72e63bc586699e174c40461b426b7d2ae7b9f4064f28a46ffc7d61198b14) (0x54d0bfa58002da5d8147921572a62fc8a2bc2281e8f6de7b34785d805973e00, 0x65c75a17066725496907c435cff55a7eb0840885a3813da32b45bf5188ecf18)
    = some (0x0, (0x5fecfc28dc560691b9d4f6f7ba73bb614ff55dc27613372e14d75ee84b1ce30, 0x2d87f87c81fdc1df31d7519d4dc1321ce164ecaa23f624f66ed8dbdf08f7df3), (0x54d0bfa58002da5d8147921572a62fc8a2bc2281e8f6de7b34785d805973e00, 0x65c75a17066725496907c435cff55a7eb0840885a3813da32b45bf5188ecf18)) := by decide

set_option maxRecDepth 400000 in
set_option maxHeartbeats 4000000 in
theorem mc_z_5 : mimicChunk 32 0x0 (0x5fecfc28dc560691b9d4f6f7ba73bb614ff55dc27613372e14d75ee84b1ce30, 0x2d87f87c81fdc1df31d7519d4dc1321ce164ecaa23f624f66ed8dbdf08f7df3) (0x54d0bfa58002da5d8147921572a62fc8a2bc2281e8f6de7b34785d805973e00, 0x65c75a17066725496907c435cff55a7eb0840885a3813da32b45bf5188ecf18)
    = some (0x0, (0x26f13df40bcffde231bb9f8e5124374c860cc6cf67a1f030c0111f4f0708553, 0x3cbe54fa89160a36ac202677d76fe5b7d47ee540d206364233525172e02bb40), (0x54d0bfa58002da5d8147921572a62fc8a2bc2281e8f6de7b34785d805973e00, 0x65c75a17066725496907c435cff55a7eb0840885a3813da32b45bf5188ecf18)) := by decide

set_option maxRecDepth 400000 in
set_option maxHeartbeats 4000000 in
theorem mc_z_6 : mimicChunk 32 0x0 (0x26f13df40bcffde231bb9f8e5124374c860cc6cf67a1f030c0111f4f0708553, 0x3cbe54fa89160a36ac202677d76fe5b7d47ee540d206364233525172e02bb40) (0x54d0bfa58002da5d8147921572a62fc8a2bc2281e8f6de7b34785d805973e00, 0x65c75a17066725496907c435cff55a7eb0840885a3813da32b45bf5188ecf18)
    = some (0x0, (0x3c39a402574057b90eb7fa4a417cce19aec62b67a023e985f7736ef4b854440, 0x6d5a144320b1e2eb38e59ed5625e375c1c7a5d76655887f6d9dc7ef3e7475fe), (0x54d0bfa58002da5d8147921572a62fc8a2bc2281e8f6de7b34785d805973e00, 0x65c75a17066725496907c435cff55a7eb0840885a3813da32b45bf5188ecf18)) := by decide

set_option maxRecDepth 400000 in
set_option maxHeartbeats 4000000 in
theorem mc_z_7 : mimicChunk 32 0x0 (0x3c39a402574057b90eb7fa4a417cce19aec62b67a023e985f7736ef4b854440, 0x6d5a144320b1e2eb38e59ed5625e375c1c7a5d76655887f6d9dc7ef3e7475fe) (0x54d0bfa58002da5d8147921572a62fc8a2bc2281e8f6de7b34785d805973e00, 0x65c75a17066725496907c435cff55a7eb0840885a3813da32b45bf5188ecf18)
    = some (0x0, (0x43989ff3cd2cb6cb016d693f72b0aa22dbaa686722470117afa85dc9d2084fa, 0x7cbf91ec7a192bb9093f24aa69f30662780c1fabe8be9bf110c5f33a1e97dcb), (0x54d0bfa58002da5d8147921572a62fc8a2bc2281e8f6de7b34785d805973e00, 0x65c75a17066725496907c435cff55a7eb0840885a3813da32b45bf5188ecf18)) := by decide

set_option maxRecDepth 400000 in
set_option maxHeartbeats 4000000 in
theorem mc_z_8 : mimicAux 27 0x0 (0x43989ff3cd2cb6cb016d693f72b0aa22dbaa686722470117afa85dc9d2084fa, 0x7cbf91ec7a192bb9093f24aa69f30662780c1fabe8be9bf110c5f33a1e97dcb) (0x54d0bfa58002da5d8147921572a62fc8a2bc2281e8f6de7b34785d805973e00, 0x65c75a17066725496907c435cff55a7eb0840885a3813da32b45bf5188ecf18)
    = .ok (0x54d0bfa58002da5d8147921572a62fc8a2bc2281e8f6de7b34785d805973e00, 0x65c75a17066725496907c435cff55a7eb0840885a3813da32b45bf5188ecf18) := by decide

set_option maxRecDepth 400000 in
set_option maxHeartbeats 4000000 in
theorem mc_z2_1 : mimicChunk 32 0x2 (0x1ef15c18599971b7beced415a40f0c7deacfd9b0d1819e03d723d8bc943cfca, 0x5668060aa49730b7be4801df46ec62de53ecd11abe43a32873000c36e8dc1f) (0x49ee3eba8c1600700ee1b87eb599f16716b0b1022947733551fde4050ca6804, 0x435f301b4c439330cb92b62f915f12cb19def9d3f1fa93e2fbfa2d991efd977)
    = some (0x0, (0x3368873d2c5ca0673b9b17948f9125f80936f0604d50d5d5c7dc4df59f8f291, 0x7815aa21eb2464cb1aeadcde45636527b04f1e71ef40c9d6fcb1d4f2e6276ab), (0x14abbfe739d6b0cadffef5a6c7be532c11fbefa6da62065bc7721b89ce60223, 0x4743ebb4aa782a01b48a580726ab10c04c7fa598d696351bed3ffd571b3c093)) := by decide

set_option maxRecDepth 400000 in
set_option maxHeartbeats 4000000 in
theorem mc_z2_2 : mimicChunk 32 0x0 (0x3368873d2c5ca0673b9b17948f9125f80936f0604d50d5d5c7dc4df59f8f291, 0x7815aa21eb2464cb1aeadcde45636527b04f1e71ef40c9d6fcb1d4f2e6276ab) (0x14abbfe739d6b0cadffef5a6c7be532c11fbefa6da62065bc7721b89ce60223, 0x4743ebb4aa782a01b48a580726ab10c04c7fa598d696351bed3ffd571b3c093)
    = some (0x0, (0x21016f29812923458c7eeeecb25a3c85ebb740d7d89501c491e19b04e4046f8, 0x2ebce8d8a8c5ab034822db290c30189e46087d3aa05e9274f66b811dcf1a6c7), (0x14abbfe739d6b0cadffef5a6c7be532c11fbefa6da62065bc7721b89ce60223, 0x4743ebb4aa782a01b48a580726ab10c04c7fa598d696351bed3ffd571b3c093)) := by decide

set_option maxRecDepth 400000 in
set_option maxHeartbeats 4000000 in
theorem mc_z2_3 : mimicChunk 32 0x0 (0x21016f29812923458c7eeeecb25a3c85ebb740d7d89501c491e19b04e4046f8, 0x2ebce8d8a8c5ab034822db290c30189e46087d3aa05e9274f66b811dcf1a6c7) (0x14abbfe739d6b0cadffef5a6c7be532c11fbefa6da62065bc7721b89ce60223, 0x4743ebb4aa782a01b48a580726ab10c04c7fa598d696351bed3ffd571b3c093)
    = some (0x0, (0x22160d371f56777a27443a7e10652aa3e12225a8007c4fb424e0dfde1b45a6a, 0x1be72e63bc586699e174c40461b426b7d2ae7b9f4064f28a46ffc7d61198b14), (0x14abbfe739d6b0cadffef5a6c7be532c11fbefa6da62065bc7721b89ce60223, 0x4743ebb4aa782a01b48a580726ab10c04c7fa598d696351bed3ffd571b3c093)) := by decide

set_option maxRecDepth 400000 in
set_option maxHeartbeats 4000000 in
theorem mc_z2_4 : mimicChunk 32 0x0 (0x22160d371f56777a27443a7e10652aa3e12225a8007c4fb424e0dfde1b45a6a, 0x1be72e63bc586699e174c40461b426b7d2ae7b9f4064f28a46ffc7d61198b14) (0x14abbfe739d6b0cadffef5a6c7be532c11fbefa6da62065bc7721b89ce60223, 0x4743ebb4aa782a01b48a580726ab10c04c7fa598d696351bed3ffd571b3c093)
    = some (0x0, (0x5fecfc28dc560691b9d4f6f7ba73bb614ff55dc27613372e14d75ee84b1ce30, 0x2d87f87c81fdc1df31d7519d4dc1321ce164ecaa23f624f66ed8dbdf08f7df3), (0x14abbfe739d6b0cadffef5a6c7be532c11fbefa6da62065bc7721b89ce60223, 0x4743ebb4aa782a01b48a580726ab10c04c7fa598d696351bed3ffd571b3c093)) := by decide

set_option maxRecDepth 400000 in
set_option maxHeartbeats 4000000 in
theorem mc_z2_5 : mimicChunk 32 0x0 (0x5fecfc28dc560691b9d4f6f7ba73bb614ff55dc27613372e14d75ee84b1ce30, 0x2d87f87c81fdc1df31d7519d4dc1321ce164ecaa23f624f66ed8dbdf08f7df3) (0x14abbfe739d6b0cadffef5a6c7be532c11fbefa6da62065bc7721b89ce60223, 0x4743ebb4aa782a01b48a580726ab10c04c7fa598d696351bed3ffd571b3c093)
    = some (0x0, (0x26f13df40bcffde231bb9f8e5124374c860cc6cf67a1f030c0111f4f0708553, 0x3cbe54fa89160a36ac202677d76fe5b7d47ee540d206364233525172e02bb40), (0x14abbfe739d6b0cadffef5a6c7be532c11fbefa6da62065bc7721b89ce60223, 0x4743ebb4aa782a01b48a580726ab10c04c7fa598d696351bed3ffd571b3c093)) := by decide

set_option maxRecDepth 400000 in
set_option maxHeartbeats 4000000 in
theorem mc_z2_6 : mimicChunk 32 0x0 (0x26f13df40bcffde231bb9f8e5124374c860cc6cf67a1f030c0111f4f0708553, 0x3cbe54fa89160a36ac202677d76fe5b7d47ee540d206364233525172e02bb40) (0x14abbfe739d6b0cadffef5a6c7be532c11fbefa6da62065bc7721b89ce60223, 0x4743ebb4aa782a01b48a580726ab10c04c7fa598d696351bed3ffd571b3c093)
    = some (0x0, (0x3c39a402574057b90eb7fa4a417cce19aec62b67a023e985f7736ef4b854440, 0x6d5a144320b1e2eb38e59ed5625e375c1c7a5d76655887f6d9dc7ef3e7475fe), (0x14abbfe739d6b0cadffef5a6c7be532c11fbefa6da62065bc7721b89ce60223, 0x4743ebb4aa782a01b48a580726ab10c04c7fa598d696351bed3ffd571b3c093)) := by decide

set_option maxRecDepth 400000 in
set_option maxHeartbeats 4000000 in
theorem mc_z2_7 : mimicChunk 32 0x0 (0x3c39a402574057b90eb7fa4a417cce19aec62b67a023e985f7736ef4b854440, 0x6d5a144320b1e2eb38e59ed5625e375c1c7a5d76655887f6d9dc7ef3e7475fe) (0x14abbfe739d6b0cadffef5a6c7be532c11fbefa6da62065bc7721b89ce60223, 0x4743ebb4aa782a01b48a580726ab10c04c7fa598d696351bed3ffd571b3c093)
    = some (0x0, (0x43989ff3cd2cb6cb016d693f72b0aa22dbaa686722470117afa85dc9d2084fa, 0x7cbf91ec7a192bb9093f24aa69f30662780c1fabe8be9bf110c5f33a1e97dcb), (0x14abbfe739d6b0cadffef5a6c7be532c11fbefa6da62065bc7721b89ce60223, 0x4743ebb4aa782a01b48a580726ab10c04c7fa598d696351bed3ffd571b3c093)) := by decide

set_option maxRecDepth 400000 in
set_option maxHeartbeats 4000000 in
theorem mc_z2_8 : mimicAux 27 0x0 (0x43989ff3cd2cb6cb016d693f72b0aa22dbaa686722470117afa85dc9d2084fa, 0x7cbf91ec7a192bb9093f24aa69f30662780c1fabe8be9bf110c5f33a1e97dcb) (0x14abbfe739d6b0cadffef5a6c7be532c11fbefa6da62065bc7721b89ce60223, 0x4743ebb4aa782a01b48a580726ab10c04c7fa598d696351bed3ffd571b3c093)
    = .ok (0x14abbfe739d6b0cadffef5a6c7be532c11fbefa6da62065bc7721b89ce60223, 0x4743ebb4aa782a01b48a580726ab10c04c7fa598d696351bed3ffd571b3c093) := by decide

set_option maxRecDepth 400000 in
set_option maxHeartbeats 4000000 in
theorem mc_r_1 : mimicChunk 32 0x1ef15c18599971b7beced415a40f0c7deacfd9b0d1819e03d723d8bc943cfca (0x1ef15c18599971b7beced415a40f0c7deacfd9b0d1819e03d723d8bc943cfca, 0x5668060aa49730b7be4801df46ec62de53ecd11abe43a32873000c36e8dc1f) (0x49ee3eba8c1600700ee1b87eb599f16716b0b1022947733551fde4050ca6804, 0x3ca0cfe4b3bc6ddf346d49d06ea0ed34e621062c0e056c1d0405d266e10268a)
    = some (0x1ef15c18599971b7beced415a40f0c7deacfd9b0d1819e03d723d8b, (0x3368873d2c5ca0673b9b17948f9125f80936f0604d50d5d5c7dc4df59f8f291, 0x7815aa21eb2464cb1aeadcde45636527b04f1e71ef40c9d6fcb1d4f2e6276ab), (0x1680f11ba633a37b32f493f0631aa27a5728e63c1e603abe23f0ba1faa292a1, 0x6ae910e86c7b2ab7e3e000f61414d68075f838f6b0e9b7ec218542d7195e0fa)) := by decide

set_option maxRecDepth 400000 in
set_option maxHeartbeats 4000000 in
theorem mc_r_2 : mimicChunk 32 0x1ef15c18599971b7beced415a40f0c7deacfd9b0d1819e03d723d8b (0x3368873d2c5ca0673b9b17948f9125f80936f0604d50d5d5c7dc4df59f8f291, 0x7815aa21eb2464cb1aeadcde45636527b04f1e71ef40c9d6fcb1d4f2e6276ab) (0x1680f11ba633a37b32f493f0631aa27a5728e63c1e603abe23f0ba1faa292a1, 0x6ae910e86c7b2ab7e3e000f61414d68075f838f6b0e9b7ec218542d7195e0fa)
    = some (0x1ef15c18599971b7beced415a40f0c7deacfd9b0d1819e0, (0x21016f29812923458c7eeeecb25a3c85ebb740d7d89501c491e19b04e4046f8, 0x2ebce8d8a8c5ab034822db290c30189e46087d3aa05e9274f66b811dcf1a6c7), (0x14494624e77fe3e379bc5643184fa4c9aef369fae951f9f6de972b2faae06c, 0x720d74601025b7cc98342a0231655cbdd44334e8aafcbcc8cc04cace29effab)) := by decide

set_option maxRecDepth 400000 in
set_option maxHeartbeats 4000000 in
theorem mc_r_3 : mimicChunk 32 0x1ef15c18599971b7beced415a40f0c7deacfd9b0d1819e0 (0x21016f29812923458c7eeeecb25a3c85ebb740d7d89501c491e19b04e4046f8, 0x2ebce8d8a8c5ab034822db290c30189e46087d3aa05e9274f66b811dcf1a6c7) (0x14494624e77fe3e379bc5643184fa4c9aef369fae951f9f6de972b2faae06c, 0x720d74601025b7cc98342a0231655cbdd44334e8aafcbcc8cc04cace29effab)
    = some (0x1ef15c18599971b7beced415a40f0c7deacfd9b, (0x22160d371f56777a27443a7e10652aa3e12225a8007c4fb424e0dfde1b45a6a, 0x1be72e63bc586699e174c40461b426b7d2ae7b9f4064f28a46ffc7d61198b14), (0x7465e45251bdc7767d45edd7232514bdc23f1bff08f00a72925190638ad776f, 0x17b7d0712f7c31a90017ff56cc81df51108fc31c76366d1502fe7286a5aa505)) := by decide

set_option maxRecDepth 400000 in
set_option maxHeartbeats 4000000 in
theorem mc_r_4 : mimicChunk 32 0x1ef15c18599971b7beced415a40f0c7deacfd9b (0x22160d371f56777a27443a7e10652aa3e12225a8007c4fb424e0dfde1b45a6a, 0x1be72e63bc586699e174c40461b426b7d2ae7b9f4064f28a46ffc7d61198b14) (0x7465e45251bdc7767d45edd7232514bdc23f1bff08f00a72925190638ad776f, 0x17b7d0712f7c31a90017ff56cc81df51108fc31c76366d1502fe7286a5aa505)
    = some (0x1ef15c18599971b7beced415a40f0c7, (0x5fecfc28dc560691b9d4f6f7ba73bb614ff55dc27613372e14d75ee84b1ce30, 0x2d87f87c81fdc1df31d7519d4dc1321ce164ecaa23f624f66ed8dbdf08f7df3), (0x4a33295b35b4a783730dd43e11dbdac74c6ad10aff382caefcf0c4a25546691, 0x635f37d755f822da688e6fefd099cac827465daa24eed4be56c49a44ce4d33e)) := by decide

set_option maxRecDepth 400000 in
set_option maxHeartbeats 4000000 in
theorem mc_r_5 : mimicChunk 32 0x1ef15c18599971b7beced415a40f0c7 (0x5fecfc28dc560691b9d4f6f7ba73bb614ff55dc27613372e14d75ee84b1ce30, 0x2d87f87c81fdc1df31d7519d4dc1321ce164ecaa23f624f66ed8dbdf08f7df3) (0x4a33295b35b4a783730dd43e11dbdac74c6ad10aff382caefcf0c4a25546691, 0x635f37d755f822da688e6fefd099cac827465daa24eed4be56c49a44ce4d33e)
    = some (0x1ef15c18599971b7beced41, (0x26f13df40bcffde231bb9f8e5124374c860cc6cf67a1f030c0111f4f0708553, 0x3cbe54fa89160a36ac202677d76fe5b7d47ee540d206364233525172e02bb40), (0x35ca519a139e1b76df6d48f2ba5fd3d9e233040dd88b57f323e4b68acf99119, 0x1c01bb28bf8e95986c0a2cbf3dafd8f3181b990ea49caf62ae021681569d40c)) := by decide

set_option maxRecDepth 400000 in
set_option maxHeartbeats 4000000 in
theorem mc_r_6 : mimicChunk 32 0x1ef15c18599971b7beced41 (0x26f13df40bcffde231bb9f8e5124374c860cc6cf67a1f030c0111f4f0708553, 0x3cbe54fa89160a36ac202677d76fe5b7d47ee540d206364233525172e02bb40) (0x35ca519a139e1b76df6d48f2ba5fd3d9e233040dd88b57f323e4b68acf99119, 0x1c01bb28bf8e95986c0a2cbf3dafd8f3181b990ea49caf62ae021681569d40c)
    = some (0x1ef15c18599971b, (0x3c39a402574057b90eb7fa4a417cce19aec62b67a023e985f7736ef4b854440, 0x6d5a144320b1e2eb38e59ed5625e375c1c7a5d76655887f6d9dc7ef3e7475fe), (0x6f077cd7edb9b73fb4a005f5dccaf88a0bfb107be941f9da185a00f60a5100c, 0x215e8d9ba41f27ffe127ee6ab99acf4c3e7dc447bce369289bd6020fe471af4)) := by decide

set_option maxRecDepth 400000 in
set_option maxHeartbeats 4000000 in
theorem mc_r_7 : mimicChunk 32 0x1ef15c18599971b (0x3c39a402574057b90eb7fa4a417cce19aec62b67a023e985f7736ef4b854440, 0x6d5a144320b1e2eb38e59ed5625e375c1c7a5d76655887f6d9dc7ef3e7475fe) (0x6f077cd7edb9b73fb4a005f5dccaf88a0bfb107be941f9da185a00f60a5100c, 0x215e8d9ba41f27ffe127ee6ab99acf4c3e7dc447bce369289bd6020fe471af4)
    = some (0x1ef15c1, (0x43989ff3cd2cb6cb016d693f72b0aa22dbaa686722470117afa85dc9d2084fa, 0x7cbf91ec7a192bb9093f24aa69f30662780c1fabe8be9bf110c5f33a1e97dcb), (0x2e9e92545eb4a4b64043c21066bef44233df280abdcfda37786c724db700315, 0x5133250f356fa39ce271322e0dec66ff7a8d5a48cd8e2ae006fdb45a9866a96)) := by decide

set_option maxRecDepth 400000 in
set_option maxHeartbeats 4000000 in
theorem mc_r_8 : mimicAux 27 0x1ef15c1 (0x43989ff3cd2cb6cb016d693f72b0aa22dbaa686722470117afa85dc9d2084fa, 0x7cbf91ec7a192bb9093f24aa69f30662780c1fabe8be9bf110c5f33a1e97dcb) (0x2e9e92545eb4a4b64043c21066bef44233df280abdcfda37786c724db700315, 0x5133250f356fa39ce271322e0dec66ff7a8d5a48cd8e2ae006fdb45a9866a96)
    = .ok (0x40d656924e3dcd8df2f731e1dedd468e3d08555e23a439d621401dfcf41a098, 0x65b871f89482687f72b79f7a881d94b2e8ddfc462b27ec17b4b86ab1647241b) := by decide

set_option maxRecDepth 400000 in
set_option maxHeartbeats 4000000 in
theorem mc_w_1 : mimicChunk 32 0xbe18f1ef6aa25f4d995d8dcfff234003530f1af38f214734a4456b2aa30d3d (0x4c6016a3b0e4a43d3c65a25f450b013db381124632e85f527b3a81e9cacc517, 0x4affd4edef0459bcb5cbf829a323b68af90f3219475c4d4be6b72ad7750804c) (0x49ee3eba8c1600700ee1b87eb599f16716b0b1022947733551fde4050ca6804, 0x3ca0cfe4b3bc6ddf346d49d06ea0ed34e621062c0e056c1d0405d266e10268a)
    = some (0xbe18f1ef6aa25f4d995d8dcfff234003530f1af38f214734a4456b, (0x43b819b13843601b10a8f285652c656765ab3225b162826c38ab51648734137, 0x678053317d8fd12f7cc0941636f25e8e03e15408f57178c5af5ca2f7e3db516), (0x6f593e59e9ad424dbc9ddab488e546da425b16666b621c577b8160777c60252, 0x6f1e0e04b1bd15b3c0afe70d530d9d40bfeed6f769086d915840d58ed070b6d)) := by decide

set_option maxRecDepth 400000 in
set_option maxHeartbeats 4000000 in
theorem mc_w_2 : mimicChunk 32 0xbe18f1ef6aa25f4d995d8dcfff234003530f1af38f214734a4456b (0x43b819b13843601b10a8f285652c656765ab3225b162826c38ab51648734137, 0x678053317d8fd12f7cc0941636f25e8e03e15408f57178c5af5ca2f7e3db516) (0x6f593e59e9ad424dbc9ddab488e546da425b16666b621c577b8160777c60252, 0x6f1e0e04b1bd15b3c0afe70d530d9d40bfeed6f769086d915840d58ed070b6d)
    = some (0xbe18f1ef6aa25f4d995d8dcfff234003530f1af38f2147, (0x5897d60762d1a19ebbc658670f33151fde2abcfc271ad1e77fc38faaf191e4b, 0x4bde852ba8124291eb780178b67af3807030915c8ec97ed690b174fcb39bc56), (0x5d295e824a69f4cd31404ce27d8eec069437da74f2bd71b631072a24b40731a, 0x9ce5deb1223a1efeb92d9c0702c54bd7c1594c0844d6ac7021e3aa794767ce)) := by decide

set_option maxRecDepth 400000 in
set_option maxHeartbeats 4000000 in
theorem mc_w_3 : mimicChunk 32 0xbe18f1ef6aa25f4d995d8dcfff234003530f1af38f2147 (0x5897d60762d1a19ebbc658670f33151fde2abcfc271ad1e77fc38faaf191e4b, 0x4bde852ba8124291eb780178b67af3807030915c8ec97ed690b174fcb39bc56) (0x5d295e824a69f4cd31404ce27d8eec069437da74f2bd71b631072a24b40731a, 0x9ce5deb1223a1efeb92d9c0702c54bd7c1594c0844d6ac7021e3aa794767ce)
    = some (0xbe18f1ef6aa25f4d995d8dcfff234003530f1a, (0x387eb26d70c0c22c1ee43710404a8414e765cafaec458919eba584307fce471, 0x485c98bec7ab155f786a1bf2615c3964e1528e15a63469b2f1daf707c5ce22), (0x40c914e2e0919bfc03590aa71c64b5973be3f2ce138e253a086dd123bd3fbb9, 0x170fb1093a865187011224ea861161db6dc4dade8d4db85911841d2cc3d4015)) := by decide

set_option maxRecDepth 400000 in
set_option maxHeartbeats 4000000 in
theorem mc_w_4 : mimicChunk 32 0xbe18f1ef6aa25f4d995d8dcfff234003530f1a (0x387eb26d70c0c22c1ee43710404a8414e765cafaec458919eba584307fce471, 0x485c98bec7ab155f786a1bf2615c3964e1528e15a63469b2f1daf707c5ce22) (0x40c914e2e0919bfc03590aa71c64b5973be3f2ce138e253a086dd123bd3fbb9, 0x170fb1093a865187011224ea861161db6dc4dade8d4db85911841d2cc3d4015)
    = some (0xbe18f1ef6aa25f4d995d8dcfff2340, (0x58c23e5808c2c1ac00b66eb852af2262b0518fb1c193057effb267c5e6c1c74, 0x1225c2fcebd7118d0096758770e92598377747f217a7c4d68ae9309ec95a9a2), (0x2842e7b38406b992b9e1cb961ef5960ac1e5e3cfaf94ab28ba70e4bfb664ce1, 0x68767783c73c80dceba9e9e774ee400f6cd8fd307fe2d7acd7541931be4e4be)) := by decide

set_option maxRecDepth 400000 in
set_option maxHeartbeats 4000000 in
theorem mc_w_5 : mimicChunk 32 0xbe18f1ef6aa25f4d995d8dcfff2340 (0x58c23e5808c2c1ac00b66eb852af2262b0518fb1c193057effb267c5e6c1c74, 0x1225c2fcebd7118d0096758770e92598377747f217a7c4d68ae9309ec95a9a2) (0x2842e7b38406b992b9e1cb961ef5960ac1e5e3cfaf94ab28ba70e4bfb664ce1, 0x68767783c73c80dceba9e9e774ee400f6cd8fd307fe2d7acd7541931be4e4be)
    = some (0xbe18f1ef6aa25f4d995d8d, (0x68c3b2ffcc15b49335f945d790fc5e136adf1ba71baad640d9b80e721912dca, 0x1ef6f3ec85911896b2f435a94e5921d9e1b30dca8bbfb8fdc15ddbcd46a5318), (0x779b8be790ecec96a912f579ba8e63b4530d73627ba86bd9cb24911c633197c, 0x3793293f881436a3622b9daa687310f43715b5a66e004c5eabdabb87832879a)) := by decide

set_option maxRecDepth 400000 in
set_option maxHeartbeats 4000000 in
theorem mc_w_6 : mimicChunk 32 0xbe18f1ef6aa25f4d995d8d (0x68c3b2ffcc15b49335f945d790fc5e136adf1ba71baad640d9b80e721912dca, 0x1ef6f3ec85911896b2f435a94e5921d9e1b30dca8bbfb8fdc15ddbcd46a5318) (0x779b8be790ecec96a912f579ba8e63b4530d73627ba86bd9cb24911c633197c, 0x3793293f881436a3622b9daa687310f43715b5a66e004c5eabdabb87832879a)
    = some (0xbe18f1ef6aa25f, (0x42cba487d507712ed68c1f1b850196e563f31966a7d8dc8e70c0030e4647824, 0x5a339bc8c2b830141d14d25b6e7b58a3debaee5dcd1a63c3e80411146439b16), (0x6654e105ad982030531e14d0db73c9b8be81a0e4fcc5cd2bda52b34102a1325, 0x253d1ddedf54e3023626b04b43bc2c61d78e0d605434c6a3a3a625b09a203f2)) := by decide

set_option maxRecDepth 400000 in
set_option maxHeartbeats 4000000 in
theorem mc_w_7 : mimicChunk 32 0xbe18f1ef6aa25f (0x42cba487d507712ed68c1f1b850196e563f31966a7d8dc8e70c0030e4647824, 0x5a339bc8c2b830141d14d25b6e7b58a3debaee5dcd1a63c3e80411146439b16) (0x6654e105ad982030531e14d0db73c9b8be81a0e4fcc5cd2bda52b34102a1325, 0x253d1ddedf54e3023626b04b43bc2c61d78e0d605434c6a3a3a625b09a203f2)
    = some (0xbe18f1, (0x374a03cc3564a0a803739e3368253decb5d1f7c7056e446616956813c368e92, 0x12dad41b37e49f8fcac0522b88d7c4dd7bfaf81aea44b9e7d04b264a6247768), (0x4ce34288f5909dc2414e0db548372ea435175cab053444e9a5a82552e464739, 0x207a5d2130b15cc0c2e328d5ce2c18e1aa2d1c9a28763c91cde659d999709b)) := by decide

set_option maxRecDepth 400000 in
set_option maxHeartbeats 4000000 in
theorem mc_w_8 : mimicAux 27 0xbe18f1 (0x374a03cc3564a0a803739e3368253decb5d1f7c7056e446616956813c368e92, 0x12dad41b37e49f8fcac0522b88d7c4dd7bfaf81aea44b9e7d04b264a6247768) (0x4ce34288f5909dc2414e0db548372ea435175cab053444e9a5a82552e464739, 0x207a5d2130b15cc0c2e328d5ce2c18e1aa2d1c9a28763c91cde659d999709b)
    = .ok (0x53ac02c0a5f157d132f278536382bb6a5d97470d2200b3bf4ae9f313627ba19, 0x474a9037f8a03cfbf90f7f5b72df656b5f5dd92c2deeec945d79139ad364efc) := by decide

set_option maxRecDepth 400000 in
set_option maxHeartbeats 4000000 in
theorem mc_wn_1 : mimicChunk 32 0x741e70e10955db1b266a2723000dcbfb42e0352d75890eae9c25cd683233ff2 (0x4c6016a3b0e4a43d3c65a25f450b013db381124632e85f527b3a81e9cacc517, 0x4affd4edef0459bcb5cbf829a323b68af90f3219475c4d4be6b72ad7750804c) (0x49ee3eba8c1600700ee1b87eb599f16716b0b1022947733551fde4050ca6804, 0x3ca0cfe4b3bc6ddf346d49d06ea0ed34e621062c0e056c1d0405d266e10268a)
    = some (0x741e70e10955db1b266a2723000dcbfb42e0352d75890eae9c25cd6, (0x43b819b13843601b10a8f285652c656765ab3225b162826c38ab51648734137, 0x678053317d8fd12f7cc0941636f25e8e03e15408f57178c5af5ca2f7e3db516), (0x3d28628808ecb950eab045c474665eb7ff87ed8831d6b17d1ab98cceb347820, 0x312f4ed4582fe939bb704225d1ffe21f66eb28c3ee4e0e893322ecd22e09993)) := by decide

set_option maxRecDepth 400000 in
set_option maxHeartbeats 4000000 in
theorem mc_wn_2 : mimicChunk 32 0x741e70e10955db1b266a2723000dcbfb42e0352d75890eae9c25cd6 (0x43b819b13843601b10a8f285652c656765ab3225b162826c38ab51648734137, 0x678053317d8fd12f7cc0941636f25e8e03e15408f57178c5af5ca2f7e3db516) (0x3d28628808ecb950eab045c474665eb7ff87ed8831d6b17d1ab98cceb347820, 0x312f4ed4582fe939bb704225d1ffe21f66eb28c3ee4e0e893322ecd22e09993)
    = some (0x741e70e10955db1b266a2723000dcbfb42e0352d75890ea, (0x5897d60762d1a19ebbc658670f33151fde2abcfc271ad1e77fc38faaf191e4b, 0x4bde852ba8124291eb780178b67af3807030915c8ec97ed690b174fcb39bc56), (0x6d487e97bb80a62d52738ea4564e9f7f1871e12e3ac05ff73c70db77fb9f046, 0x4ca8a823f50e787b2199933fe16fb425d0fb9fda8cc9775791544b2f858f568)) := by decide

set_option maxRecDepth 400000 in
set_option maxHeartbeats 4000000 in
theorem mc_wn_3 : mimicChunk 32 0x741e70e10955db1b266a2723000dcbfb42e0352d75890ea (0x5897d60762d1a19ebbc658670f33151fde2abcfc271ad1e77fc38faaf191e4b, 0x4bde852ba8124291eb780178b67af3807030915c8ec97ed690b174fcb39bc56) (0x6d487e97bb80a62d52738ea4564e9f7f1871e12e3ac05ff73c70db77fb9f046, 0x4ca8a823f50e787b2199933fe16fb425d0fb9fda8cc9775791544b2f858f568)
    = some (0x741e70e10955db1b266a2723000dcbfb42e0352, (0x387eb26d70c0c22c1ee43710404a8414e765cafaec458919eba584307fce471, 0x485c98bec7ab155f786a1bf2615c3964e1528e15a63469b2f1daf707c5ce22), (0x2601ed40f3e030a41eb17fbaa8099e684237d1a94f1dad7134e4c244fddee69, 0x9075dbd286dc25c62443a05a566164c373eadc1b7227922ea4908e3e373b05)) := by decide

set_option maxRecDepth 400000 in
set_option maxHeartbeats 4000000 in
theorem mc_wn_4 : mimicChunk 32 0x741e70e10955db1b266a2723000dcbfb42e0352 (0x387eb26d70c0c22c1ee43710404a8414e765cafaec458919eba584307fce471, 0x485c98bec7ab155f786a1bf2615c3964e1528e15a63469b2f1daf707c5ce22) (0x2601ed40f3e030a41eb17fbaa8099e684237d1a94f1dad7134e4c244fddee69, 0x9075dbd286dc25c62443a05a566164c373eadc1b7227922ea4908e3e373b05)
    = some (0x741e70e10955db1b266a2723000dcbf, (0x58c23e5808c2c1ac00b66eb852af2262b0518fb1c193057effb267c5e6c1c74, 0x1225c2fcebd7118d0096758770e92598377747f217a7c4d68ae9309ec95a9a2), (0x642a2cd94dadaa4c616558c4d9158a6a270bd6a3542d8141c0198046a0dc8e5, 0x403d543d359f08d6661dee40a1c006cf0b5924f362e5c2ac7ccc4ddadf9029)) := by decide

set_option maxRecDepth 400000 in
set_option maxHeartbeats 4000000 in
theorem mc_wn_5 : mimicChunk 32 0x741e70e10955db1b266a2723000dcbf (0x58c23e5808c2c1ac00b66eb852af2262b0518fb1c193057effb267c5e6c1c74, 0x1225c2fcebd7118d0096758770e92598377747f217a7c4d68ae9309ec95a9a2) (0x642a2cd94dadaa4c616558c4d9158a6a270bd6a3542d8141c0198046a0dc8e5, 0x403d543d359f08d6661dee40a1c006cf0b5924f362e5c2ac7ccc4ddadf9029)
    = some (0x741e70e10955db1b266a272, (0x68c3b2ffcc15b49335f945d790fc5e136adf1ba71baad640d9b80e721912dca, 0x1ef6f3ec85911896b2f435a94e5921d9e1b30dca8bbfb8fdc15ddbcd46a5318), (0x4d58a186df4cc4cac02a0c0040c5a8d1031eb117739a551c876f871f63856b9, 0x3310d0d3657bd57b03ac196ae5411cd4e0ab5c6e16d996e2b97436edd8f47e5)) := by decide

set_option maxRecDepth 400000 in
set_option maxHeartbeats 4000000 in
theorem mc_wn_6 : mimicChunk 32 0x741e70e10955db1b266a272 (0x68c3b2ffcc15b49335f945d790fc5e136adf1ba71baad640d9b80e721912dca, 0x1ef6f3ec85911896b2f435a94e5921d9e1b30dca8bbfb8fdc15ddbcd46a5318) (0x4d58a186df4cc4cac02a0c0040c5a8d1031eb117739a551c876f871f63856b9, 0x3310d0d3657bd57b03ac196ae5411cd4e0ab5c6e16d996e2b97436edd8f47e5)
    = some (0x741e70e10955db1, (0x42cba487d507712ed68c1f1b850196e563f31966a7d8dc8e70c0030e4647824, 0x5a339bc8c2b830141d14d25b6e7b58a3debaee5dcd1a63c3e80411146439b16), (0x322b9298e06fc0ac710aacf2c0255c8e93f3f01c6a952608badb45677264c05, 0x3863f0f06453522c018ec473834b46c647ed47de74fb12cf03f67642f5e57b3)) := by decide

set_option maxRecDepth 400000 in
set_option maxHeartbeats 4000000 in
theorem mc_wn_7 : mimicChunk 32 0x741e70e10955db1 (0x42cba487d507712ed68c1f1b850196e563f31966a7d8dc8e70c0030e4647824, 0x5a339bc8c2b830141d14d25b6e7b58a3debaee5dcd1a63c3e80411146439b16) (0x322b9298e06fc0ac710aacf2c0255c8e93f3f01c6a952608badb45677264c05, 0x3863f0f06453522c018ec473834b46c647ed47de74fb12cf03f67642f5e57b3)
    = some (0x741e70e, (0x374a03cc3564a0a803739e3368253decb5d1f7c7056e446616956813c368e92, 0x12dad41b37e49f8fcac0522b88d7c4dd7bfaf81aea44b9e7d04b264a6247768), (0x583ae489ee2034107cb19e87bbf56be1fb7a10fd5d34aa00cdd40a2a7d0f7ab, 0x1c97f916a80abc571a041da362f7ed0a8aee255dd7976668d7fe5e5354cd665)) := by decide

set_option maxRecDepth 400000 in
set_option maxHeartbeats 4000000 in
theorem mc_wn_8 : mimicAux 27 0x741e70e (0x374a03cc3564a0a803739e3368253decb5d1f7c7056e446616956813c368e92, 0x12dad41b37e49f8fcac0522b88d7c4dd7bfaf81aea44b9e7d04b264a6247768) (0x583ae489ee2034107cb19e87bbf56be1fb7a10fd5d34aa00cdd40a2a7d0f7ab, 0x1c97f916a80abc571a041da362f7ed0a8aee255dd7976668d7fe5e5354cd665)
    = .ok (0x54d0bfa58002da5d8147921572a62fc8a2bc2281e8f6de7b34785d805973e00, 0x1a38a5e8f998dbc696f83bca300aa5814f7bf77a5c7ec25cd4ba40ae77130e9) := by decide

set_option maxRecDepth 400000 in
set_option maxHeartbeats 4000000 in
theorem mc_w2_1 : mimicChunk 32 0xbe18f1ef6aa25f4d995d8dcfff234003530f1af38f214734a4456b2aa30d3d (0x540ddf25250181b4ad4f492d15ef9d6ee8272e7bd967e03faaa5970baa12125, 0x3bda4dd2c0610a28327bd60c1ed6bf2dfa8234647ad9858ff059cb6682e7f4f) (0x49ee3eba8c1600700ee1b87eb599f16716b0b1022947733551fde4050ca6804, 0x3ca0cfe4b3bc6ddf346d49d06ea0ed34e621062c0e056c1d0405d266e10268a)
    = some (0xbe18f1ef6aa25f4d995d8dcfff234003530f1af38f214734a4456b, (0x1d1745494860b470524a4b1d2ebc49f68b15c49677cfcf9b7d54c7428282fc6, 0x28bd232545586875fc6fe59d492f069afecec7f99e936146091aaf751fd412), (0x26f3501d4782514c95cc2760955d6011e03e717ddff507481fa5cd6dd01735d, 0x6047a65c81a168852a6ee2ebee984b5eb59a46d868cd3f370f7b87dcc3d73b6)) := by decide

set_option maxRecDepth 400000 in
set_option maxHeartbeats 4000000 in
theorem mc_w2_2 : mimicChunk 32 0xbe18f1ef6aa25f4d995d8dcfff234003530f1af38f214734a4456b (0x1d1745494860b470524a4b1d2ebc49f68b15c49677cfcf9b7d54c7428282fc6, 0x28bd232545586875fc6fe59d492f069afecec7f99e936146091aaf751fd412) (0x26f3501d4782514c95cc2760955d6011e03e717ddff507481fa5cd6dd01735d, 0x6047a65c81a168852a6ee2ebee984b5eb59a46d868cd3f370f7b87dcc3d73b6)
    = some (0xbe18f1ef6aa25f4d995d8dcfff234003530f1af38f2147, (0x549f736ae1196a30df12363d141b5ec8f42162d1e60ddae1cbb84173cabb4f6, 0x39de79b5a48fe75b8d96c7cd54e4ab12e218c9562aa31cdf7b41bda56b5b105), (0x162f5a720628ada1aca6a406c96a4b1f6c319b792cf8e005f5e7ed77c42f131, 0x2d0c5f37d990730ca5e3e37a10b1dd7dbb11bd0daae25b8fe81190f2702fa1c)) := by decide

set_option maxRecDepth 400000 in
set_option maxHeartbeats 4000000 in
theorem mc_w2_3 : mimicChunk 32 0xbe18f1ef6aa25f4d995d8dcfff234003530f1af38f2147 (0x549f736ae1196a30df12363d141b5ec8f42162d1e60ddae1cbb84173cabb4f6, 0x39de79b5a48fe75b8d96c7cd54e4ab12e218c9562aa31cdf7b41bda56b5b105) (0x162f5a720628ada1aca6a406c96a4b1f6c319b792cf8e005f5e7ed77c42f131, 0x2d0c5f37d990730ca5e3e37a10b1dd7dbb11bd0daae25b8fe81190f2702fa1c)
    = some (0xbe18f1ef6aa25f4d995d8dcfff234003530f1a, (0xc7fe8a39a91cae9c121371d255381b40519b9ae931522fcba874d26acca997, 0x5b14ccf46a161ff4d000ed750bfcae3ad541d6493e7307fc0e4ee34bf6e137f), (0x3e7b31476aaab042cf865e8b3c959c4918d7d8cacc2f31a15f8dd5209bdb835, 0x312883edf91d7ad2983e456fe167f3b470ca0621e8aa49c47484340b6b9a8fc)) := by decide

set_option maxRecDepth 400000 in
set_option maxHeartbeats 4000000 in
theorem mc_w2_4 : mimicChunk 32 0xbe18f1ef6aa25f4d995d8dcfff234003530f1a (0xc7fe8a39a91cae9c121371d255381b40519b9ae931522fcba874d26acca997, 0x5b14ccf46a161ff4d000ed750bfcae3ad541d6493e7307fc0e4ee34bf6e137f) (0x3e7b31476aaab042cf865e8b3c959c4918d7d8cacc2f31a15f8dd5209bdb835, 0x312883edf91d7ad2983e456fe167f3b470ca0621e8aa49c47484340b6b9a8fc)
    = some (0xbe18f1ef6aa25f4d995d8dcfff2340, (0x64201fb12a89917f4f699a9b31404acce14fe6e67f966c55fce4fcb04a8c90, 0x2ed72f1db8acf5c3b7edbefeed61919198836cf24970406ad52a1cc5afed9c7), (0x2083b5465e70aa74bc18b763515a61335d1d2f0f150cc35645f07578bd4decf, 0x238e6920037fcb38075feec5100309a90a04e6beff1a84623442fe46f25ce5e)) := by decide

set_option maxRecDepth 400000 in
set_option maxHeartbeats 4000000 in
theorem mc_w2_5 : mimicChunk 32 0xbe18f1ef6aa25f4d995d8dcfff2340 (0x64201fb12a89917f4f699a9b31404acce14fe6e67f966c55fce4fcb04a8c90, 0x2ed72f1db8acf5c3b7edbefeed61919198836cf24970406ad52a1cc5afed9c7) (0x2083b5465e70aa74bc18b763515a61335d1d2f0f150cc35645f07578bd4decf, 0x238e6920037fcb38075feec5100309a90a04e6beff1a84623442fe46f25ce5e)
    = some (0xbe18f1ef6aa25f4d995d8d, (0x23b0fe4fdc82c65c6d9467805ca24bce8fe02beca590b1a08134e666817ee15, 0x53b494582942c24501940424e2a833a3a3933d7be4fa2cf6b8ef52e9eb1d0c2), (0x3803c43c4ceb7816b5bc5f86292b1d1d480ab19c3eb6ca48f5920fe60041e7f, 0x40c2c2366b0bb0391fe08e1a0e763904ad7b8a4017609c32f890babf20c2b2f)) := by decide

set_option maxRecDepth 400000 in
set_option maxHeartbeats 4000000 in
theorem mc_w2_6 : mimicChunk 32 0xbe18f1ef6aa25f4d995d8d (0x23b0fe4fdc82c65c6d9467805ca24bce8fe02beca590b1a08134e666817ee15, 0x53b494582942c24501940424e2a833a3a3933d7be4fa2cf6b8ef52e9eb1d0c2) (0x3803c43c4ceb7816b5bc5f86292b1d1d480ab19c3eb6ca48f5920fe60041e7f, 0x40c2c2366b0bb0391fe08e1a0e763904ad7b8a4017609c32f890babf20c2b2f)
    = some (0xbe18f1ef6aa25f, (0x40519c9bd0a96ddce05034e8d342472c610613cfaf550fbe8d03ac2e07eacb4, 0x39ea18c03bfe02c2408595f3a3de6d8233efb37589a87a1f954d24e8ce7bc40), (0x71e81decea3de83488da1d242e11241ff4b956ed1108c494ce6af4698dcc0a7, 0x565ddd77aedccacf5ebebeadc7125ed6ab0116248fa0e3f408fa4c4cadb43c8)) := by decide

set_option maxRecDepth 400000 in
set_option maxHeartbeats 4000000 in
theorem mc_w2_7 : mimicChunk 32 0xbe18f1ef6aa25f (0x40519c9bd0a96ddce05034e8d342472c610613cfaf550fbe8d03ac2e07eacb4, 0x39ea18c03bfe02c2408595f3a3de6d8233efb37589a87a1f954d24e8ce7bc40) (0x71e81decea3de83488da1d242e11241ff4b956ed1108c494ce6af4698dcc0a7, 0x565ddd77aedccacf5ebebeadc7125ed6ab0116248fa0e3f408fa4c4cadb43c8)
    = some (0xbe18f1, (0xf38dbde6714f35d6f8d30bcabc57c04b64f941753f9289204fa1c85d033e6e, 0x4567dd03bd5fdfa48b64e07479b6c7b30959c469d4444cf67db6119bca497b5), (0xeedc2d54978d2ba55311c66a66300e3f2d71e3ab96ec1ee6accaa085239dd3, 0x333eb78802edfa3d2379d23d33b3ebd37389503a904833f72d677c2027298c)) := by decide

set_option maxRecDepth 400000 in
set_option maxHeartbeats 4000000 in
theorem mc_w2_8 : mimicAux 27 0xbe18f1 (0xf38dbde6714f35d6f8d30bcabc57c04b64f941753f9289204fa1c85d033e6e, 0x4567dd03bd5fdfa48b64e07479b6c7b30959c469d4444cf67db6119bca497b5) (0xeedc2d54978d2ba55311c66a66300e3f2d71e3ab96ec1ee6accaa085239dd3, 0x333eb78802edfa3d2379d23d33b3ebd37389503a904833f72d677c2027298c)
    = .ok (0x4f7fad0cd0567c71628c9268d33a90e79b797baa404a56c91e4f0d34418ca6c, 0x5e24565893bd1edcafe228666c5f4644c4874f1dca9e65916ce84acd3983c66) := by decide

set_option maxRecDepth 1000000 in
set_option maxHeartbeats 16000000 in
theorem mimic_z_eval : mimic_ec_mult_air SIG_MSG EC_GEN MINUS_SHIFT_POINT
    = .ok (0x54d0bfa58002da5d8147921572a62fc8a2bc2281e8f6de7b34785d805973e00, 0x65c75a17066725496907c435cff55a7eb0840885a3813da32b45bf5188ecf18) := by
  rw [mimic_ec_mult_air, if_pos (show 0 < SIG_MSG ∧ SIG_MSG < 2 ^ N_ELEMENT_BITS_ECDSA by decide)]
  exact (mimicChunk_glue 32 219 _ _ _ _ _ _ mc_z_1).trans ((mimicChunk_glue 32 187 _ _ _ _ _ _ mc_z_2).trans ((mimicChunk_glue 32 155 _ _ _ _ _ _ mc_z_3).trans ((mimicChunk_glue 32 123 _ _ _ _ _ _ mc_z_4).trans ((mimicChunk_glue 32 91 _ _ _ _ _ _ mc_z_5).trans ((mimicChunk_glue 32 59 _ _ _ _ _ _ mc_z_6).trans ((mimicChunk_glue 32 27 _ _ _ _ _ _ mc_z_7).trans (mc_z_8)))))))

set_option maxRecDepth 1000000 in
set_option maxHeartbeats 16000000 in
theorem mimic_z2_eval : mimic_ec_mult_air (SIG_MSG + 1) EC_GEN MINUS_SHIFT_POINT
    = .ok (0x14abbfe739d6b0cadffef5a6c7be532c11fbefa6da62065bc7721b89ce60223, 0x4743ebb4aa782a01b48a580726ab10c04c7fa598d696351bed3ffd571b3c093) := by
  rw [mimic_ec_mult_air, if_pos (show 0 < (SIG_MSG + 1) ∧ (SIG_MSG + 1) < 2 ^ N_ELEMENT_BITS_ECDSA by decide)]
  exact (mimicChunk_glue 32 219 _ _ _ _ _ _ mc_z2_1).trans ((mimicChunk_glue 32 187 _ _ _ _ _ _ mc_z2_2).trans ((mimicChunk_glue 32 155 _ _ _ _ _ _ mc_z2_3).trans ((mimicChunk_glue 32 123 _ _ _ _ _ _ mc_z2_4).trans ((mimicChunk_glue 32 91 _ _ _ _ _ _ mc_z2_5).trans ((mimicChunk_glue 32 59 _ _ _ _ _ _ mc_z2_6).trans ((mimicChunk_glue 32 27 _ _ _ _ _ _ mc_z2_7).trans (mc_z2_8)))))))

set_option maxRecDepth 1000000 in
set_option maxHeartbeats 16000000 in
theorem mimic_r_eval : mimic_ec_mult_air SIG_R EC_GEN SHIFT_POINT
    = .ok (0x40d656924e3dcd8df2f731e1dedd468e3d08555e23a439d621401dfcf41a098, 0x65b871f89482687f72b79f7a881d94b2e8ddfc462b27ec17b4b86ab1647241b) := by
  rw [mimic_ec_mult_air, if_pos (show 0 < SIG_R ∧ SIG_R < 2 ^ N_ELEMENT_BITS_ECDSA by decide)]
  exact (mimicChunk_glue 32 219 _ _ _ _ _ _ mc_r_1).trans ((mimicChunk_glue 32 187 _ _ _ _ _ _ mc_r_2).trans ((mimicChunk_glue 32 155 _ _ _ _ _ _ mc_r_3).trans ((mimicChunk_glue 32 123 _ _ _ _ _ _ mc_r_4).trans ((mimicChunk_glue 32 91 _ _ _ _ _ _ mc_r_5).trans ((mimicChunk_glue 32 59 _ _ _ _ _ _ mc_r_6).trans ((mimicChunk_glue 32 27 _ _ _ _ _ _ mc_r_7).trans (mc_r_8)))))))

set_option maxRecDepth 1000000 in
set_option maxHeartbeats 16000000 in
theorem mimic_w_eval : mimic_ec_mult_air SIG_W (0x4c6016a3b0e4a43d3c65a25f450b013db381124632e85f527b3a81e9cacc517, 0x4affd4edef0459bcb5cbf829a323b68af90f3219475c4d4be6b72ad7750804c) SHIFT_POINT
    = .ok (0x53ac02c0a5f157d132f278536382bb6a5d97470d2200b3bf4ae9f313627ba19, 0x474a9037f8a03cfbf90f7f5b72df656b5f5dd92c2deeec945d79139ad364efc) := by
  rw [mimic_ec_mult_air, if_pos (show 0 < SIG_W ∧ SIG_W < 2 ^ N_ELEMENT_BITS_ECDSA by decide)]
  exact (mimicChunk_glue 32 219 _ _ _ _ _ _ mc_w_1).trans ((mimicChunk_glue 32 187 _ _ _ _ _ _ mc_w_2).trans ((mimicChunk_glue 32 155 _ _ _ _ _ _ mc_w_3).trans ((mimicChunk_glue 32 123 _ _ _ _ _ _ mc_w_4).trans ((mimicChunk_glue 32 91 _ _ _ _ _ _ mc_w_5).trans ((mimicChunk_glue 32 59 _ _ _ _ _ _ mc_w_6).trans ((mimicChunk_glue 32 27 _ _ _ _ _ _ mc_w_7).trans (mc_w_8)))))))

set_option maxRecDepth 1000000 in
set_option maxHeartbeats 16000000 in
theorem mimic_wn_eval : mimic_ec_mult_air SIG_W_NEG (0x4c6016a3b0e4a43d3c65a25f450b013db381124632e85f527b3a81e9cacc517, 0x4affd4edef0459bcb5cbf829a323b68af90f3219475c4d4be6b72ad7750804c) SHIFT_POINT
    = .ok (0x54d0bfa58002da5d8147921572a62fc8a2bc2281e8f6de7b34785d805973e00, 0x1a38a5e8f998dbc696f83bca300aa5814f7bf77a5c7ec25cd4ba40ae77130e9) := by
  rw [mimic_ec_mult_air, if_pos (show 0 < SIG_W_NEG ∧ SIG_W_NEG < 2 ^ N_ELEMENT_BITS_ECDSA by decide)]
  exact (mimicChunk_glue 32 219 _ _ _ _ _ _ mc_wn_1).trans ((mimicChunk_glue 32 187 _ _ _ _ _ _ mc_wn_2).trans ((mimicChunk_glue 32 155 _ _ _ _ _ _ mc_wn_3).trans ((mimicChunk_glue 32 123 _ _ _ _ _ _ mc_wn_4).trans ((mimicChunk_glue 32 91 _ _ _ _ _ _ mc_wn_5).trans ((mimicChunk_glue 32 59 _ _ _ _ _ _ mc_wn_6).trans ((mimicChunk_glue 32 27 _ _ _ _ _ _ mc_wn_7).trans (mc_wn_8)))))))

set_option maxRecDepth 1000000 in
set_option maxHeartbeats 16000000 in
theorem mimic_w2_eval : mimic_ec_mult_air SIG_W (0x540ddf25250181b4ad4f492d15ef9d6ee8272e7bd967e03faaa5970baa12125, 0x3bda4dd2c0610a28327bd60c1ed6bf2dfa8234647ad9858ff059cb6682e7f4f) SHIFT_POINT
    = .ok (0x4f7fad0cd0567c71628c9268d33a90e79b797baa404a56c91e4f0d34418ca6c, 0x5e24565893bd1edcafe228666c5f4644c4874f1dca9e65916ce84acd3983c66) := by
  rw [mimic_ec_mult_air, if_pos (show 0 < SIG_W ∧ SIG_W < 2 ^ N_ELEMENT_BITS_ECDSA by decide)]
  exact (mimicChunk_glue 32 219 _ _ _ _ _ _ mc_w2_1).trans ((mimicChunk_glue 32 187 _ _ _ _ _ _ mc_w2_2).trans ((mimicChunk_glue 32 155 _ _ _ _ _ _ mc_w2_3).trans ((mimicChunk_glue 32 123 _ _ _ _ _ _ mc_w2_4).trans ((mimicChunk_glue 32 91 _ _ _ _ _ _ mc_w2_5).trans ((mimicChunk_glue 32 59 _ _ _ _ _ _ mc_w2_6).trans ((mimicChunk_glue 32 27 _ _ _ _ _ _ mc_w2_7).trans (mc_w2_8)))))))

set_option maxRecDepth 400000 in
theorem addc_s1 : ec_add_checked (0x54d0bfa58002da5d8147921572a62fc8a2bc2281e8f6de7b34785d805973e00, 0x65c75a17066725496907c435cff55a7eb0840885a3813da32b45bf5188ecf18) (0x40d656924e3dcd8df2f731e1dedd468e3d08555e23a439d621401dfcf41a098, 0x65b871f89482687f72b79f7a881d94b2e8ddfc462b27ec17b4b86ab1647241b) = .ok (0x4c6016a3b0e4a43d3c65a25f450b013db381124632e85f527b3a81e9cacc517, 0x4affd4edef0459bcb5cbf829a323b68af90f3219475c4d4be6b72ad7750804c) := by decide

set_option maxRecDepth 400000 in
theorem addc_s12 : ec_add_checked (0x14abbfe739d6b0cadffef5a6c7be532c11fbefa6da62065bc7721b89ce60223, 0x4743ebb4aa782a01b48a580726ab10c04c7fa598d696351bed3ffd571b3c093) (0x40d656924e3dcd8df2f731e1dedd468e3d08555e23a439d621401dfcf41a098, 0x65b871f89482687f72b79f7a881d94b2e8ddfc462b27ec17b4b86ab1647241b) = .ok (0x540ddf25250181b4ad4f492d15ef9d6ee8272e7bd967e03faaa5970baa12125, 0x3bda4dd2c0610a28327bd60c1ed6bf2dfa8234647ad9858ff059cb6682e7f4f) := by decide

set_option maxRecDepth 400000 in
theorem addc_x : ec_add_checked (0x53ac02c0a5f157d132f278536382bb6a5d97470d2200b3bf4ae9f313627ba19, 0x474a9037f8a03cfbf90f7f5b72df656b5f5dd92c2deeec945d79139ad364efc) MINUS_SHIFT_POINT = .ok (0x1ef15c18599971b7beced415a40f0c7deacfd9b0d1819e03d723d8bc943cfca, 0x5668060aa49730b7be4801df46ec62de53ecd11abe43a32873000c36e8dc1f) := by decide

set_option maxRecDepth 400000 in
theorem addc_xn : ec_add_checked (0x54d0bfa58002da5d8147921572a62fc8a2bc2281e8f6de7b34785d805973e00, 0x1a38a5e8f998dbc696f83bca300aa5814f7bf77a5c7ec25cd4ba40ae77130e9) MINUS_SHIFT_POINT = .ok (0x1ef15c18599971b7beced415a40f0c7deacfd9b0d1819e03d723d8bc943cfca, 0x7a997f9f55b68e04841b7fe20b9139d21ac132ee541bc5cd78cfff3c91723e2) := by decide

set_option maxRecDepth 400000 in
theorem addc_x2 : ec_add_checked (0x4f7fad0cd0567c71628c9268d33a90e79b797baa404a56c91e4f0d34418ca6c, 0x5e24565893bd1edcafe228666c5f4644c4874f1dca9e65916ce84acd3983c66) MINUS_SHIFT_POINT = .ok (0x1872f1bd96799a3d3013a7fdad4e1aff8e43b121461126ca5ecf73055893e8f, 0x108925319450f824f5a3e062c29b0e0c6be6c3d129050a1ea7f86fa4f8eefd8) := by decide

theorem verify_core_honest_eval :
    verify_core SIG_MSG SIG_R SIG_W EC_GEN = .ok 0x1ef15c18599971b7beced415a40f0c7deacfd9b0d1819e03d723d8bc943cfca := by
  simp only [verify_core, mimic_z_eval, except_bind_ok, mimic_r_eval, addc_s1,
    mimic_w_eval, addc_x]

theorem verify_core_neg_s_eval :
    verify_core SIG_MSG SIG_R SIG_W_NEG EC_GEN = .ok 0x1ef15c18599971b7beced415a40f0c7deacfd9b0d1819e03d723d8bc943cfca := by
  simp only [verify_core, mimic_z_eval, except_bind_ok, mimic_r_eval, addc_s1,
    mimic_wn_eval, addc_xn]

theorem verify_core_msg_tampered_eval :
    verify_core (SIG_MSG + 1) SIG_R SIG_W EC_GEN = .ok 0x1872f1bd96799a3d3013a7fdad4e1aff8e43b121461126ca5ecf73055893e8f := by
  simp only [verify_core, mimic_z2_eval, except_bind_ok, mimic_r_eval, addc_s12,
    mimic_w2_eval, addc_x2]

set_option maxRecDepth 1000000 in
set_option maxHeartbeats 16000000 in
theorem verify_eval_honest : verify SIG_MSG SIG_R SIG_W EC_GEN = .ok true := by
  rw [verify, if_neg (show ¬¬(1 ≤ SIG_R ∧ SIG_R < 2 ^ N_ELEMENT_BITS_ECDSA) by decide),
    if_neg (show ¬¬(1 ≤ SIG_W ∧ SIG_W < 2 ^ N_ELEMENT_BITS_ECDSA) by decide),
    if_neg (show ¬¬(SIG_MSG < 2 ^ N_ELEMENT_BITS_ECDSA) by decide),
    if_neg (show ¬¬(on_curve EC_GEN = true) by decide),
    verify_core_honest_eval]
  decide

set_option maxRecDepth 1000000 in
set_option maxHeartbeats 16000000 in
theorem verify_eval_neg_s : verify SIG_MSG SIG_R SIG_W_NEG EC_GEN = .ok true := by
  rw [verify, if_neg (show ¬¬(1 ≤ SIG_R ∧ SIG_R < 2 ^ N_ELEMENT_BITS_ECDSA) by decide),
    if_neg (show ¬¬(1 ≤ SIG_W_NEG ∧ SIG_W_NEG < 2 ^ N_ELEMENT_BITS_ECDSA) by decide),
    if_neg (show ¬¬(SIG_MSG < 2 ^ N_ELEMENT_BITS_ECDSA) by decide),
    if_neg (show ¬¬(on_curve EC_GEN = true) by decide),
    verify_core_neg_s_eval]
  decide

set_option maxRecDepth 1000000 in
set_option maxHeartbeats 16000000 in
theorem verify_eval_msg_tampered :
    verify (SIG_MSG + 1) SIG_R SIG_W EC_GEN = .ok false := by
  rw [verify, if_neg (show ¬¬(1 ≤ SIG_R ∧ SIG_R < 2 ^ N_ELEMENT_BITS_ECDSA) by decide),
    if_neg (show ¬¬(1 ≤ SIG_W ∧ SIG_W < 2 ^ N_ELEMENT_BITS_ECDSA) by decide),
    if_neg (show ¬¬(SIG_MSG + 1 < 2 ^ N_ELEMENT_BITS_ECDSA) by decide),
    if_neg (show ¬¬(on_curve EC_GEN = true) by decide),
    verify_core_msg_tampered_eval]
  decide

set_option maxRecDepth 1000000 in
set_option maxHeartbeats 16000000 in
/-- C2 counterexample: at message `1`, private key `1` (public key
`EC_GEN`), nonce `1`, `sign` returns `(SIG_R, SIG_W)`, yet the tampered
second component `s' = EC_ORDER - SIG_W` — which differs from `SIG_W` and
lies in `[1, 2^251)` — is *also accepted* by `verify`: the claim's
"for every tampered s' ≠ s ... verify returns false" clause is false. -/
theorem sign_verify_malleable_counterexample :
    private_key_to_ec_point_on_stark_curve SIG_PRIV
      = .ok (.aff EC_GEN.1 EC_GEN.2) ∧
    sign_attempt SIG_MSG SIG_PRIV SIG_K = .ok (some (SIG_R, SIG_W)) ∧
    SIG_W_NEG ≠ SIG_W ∧ 1 ≤ SIG_W_NEG ∧ SIG_W_NEG < 2 ^ 251 ∧
    verify SIG_MSG SIG_R SIG_W_NEG EC_GEN = .ok true :=
  ⟨by decide, by decide, by decide, by decide, by decide, verify_eval_neg_s⟩

set_option maxRecDepth 1000000 in
set_option maxHeartbeats 16000000 in
/-- C2 (amended): at the demonstrated instance (message `1`, private key
`1`, public key `EC_GEN` given as a point, nonce `1`), `sign` returns
`(SIG_R, SIG_W)` and `verify` accepts it; tampering with the message is
rejected there; but `verify` is malleable in the second component:
`EC_ORDER - SIG_W` (in range, distinct from `SIG_W`) also verifies, so the
tampered-`s'` clause must except `s' ≡ -s (mod EC_ORDER)`.  The remaining
universally-quantified clauses of the original claim hold only with
overwhelming probability over the curve data, not absolutely. -/
theorem sign_verify_instance_amended :
    sign_attempt SIG_MSG SIG_PRIV SIG_K = .ok (some (SIG_R, SIG_W)) ∧
    verify SIG_MSG SIG_R SIG_W EC_GEN = .ok true ∧
    verify (SIG_MSG + 1) SIG_R SIG_W EC_GEN = .ok false ∧
    verify SIG_MSG SIG_R SIG_W_NEG EC_GEN = .ok true ∧
    SIG_W_NEG ≠ SIG_W :=
  ⟨by decide, verify_eval_honest, verify_eval_msg_tampered, verify_eval_neg_s,
    by decide⟩
